import Mathlib

/-!
Shallow embedding of the Kaguya decision engine (`src/kaguya/cerveau.py`).

Modelling conventions:
* Python floats are modelled as rationals (`ℚ`); every numeric literal of the
  source is a decimal fraction, hence exact in `ℚ`.
* The random generator of the engine (`random.Random`) is modelled as an external
  stream `ℕ → ℚ` of draws together with a cursor `rngIdx` stored in the engine
  state; `random()` and `uniform(a,b)` consume one draw, `randint`/`choice`
  consume one draw and map it into the requested range.  Quantifying over all
  streams covers every seed.
* The wall clock (`datetime.now`, `time.monotonic`) is modelled by two further
  external streams indexed by the tick number.
* Python dicts keyed by the seven fixed action names are modelled as total
  functions from the `Action` type; dict iteration order (used by `max`/`min`
  over score and count dicts) is the fixed declaration order of the actions.
* The French identifier strings of the source (intention labels, idea titles)
  are modelled by closed inductive types; only their identity matters.
-/

namespace Kaguya

/-- The seven fixed action names of `MondeSimule.standard`. -/
inductive Action
  | rest | organize | practice | explore | reflect | idle | challenge
  deriving DecidableEq, Repr

/-- The actions in the declaration order of `MondeSimule.standard`
(Python dict insertion order, as returned by `MondeSimule.actions`). -/
def actionsList : List Action :=
  [.rest, .organize, .practice, .explore, .reflect, .idle, .challenge]

/-- The four simulated day phases of `_compute_sim_day_phase`. -/
inductive Phase
  | night | morning | day | evening
  deriving DecidableEq, Repr

/-- The wall-clock phase of `_compute_pc_day_phase` ("night" or "day"). -/
inductive PcPhase
  | night | day
  deriving DecidableEq, Repr

/-- Rare event types of `_roll_rare_event`; `none` is the string "none". -/
inductive RareEvt
  | none | discovery | near_failure | success_major | stress_spike | opportunity_exceptionnelle
  deriving DecidableEq, Repr

/-- Context keys of `_context_key`. -/
inductive Ctx
  | danger_high | opportunity_high | neutral
  deriving DecidableEq, Repr

/-- Router inference modes ("realtime" / "reflexion"). -/
inductive Mode
  | realtime | reflexion
  deriving DecidableEq, Repr

/-- The intention labels used by `_choose_intention` (French strings in the
source: "tester une idée", "récupérer", "stabiliser", "explorer",
"progresser"). -/
inductive IntentNom
  | tester_une_idee | recuperer | stabiliser | explorer | progresser
  deriving DecidableEq, Repr

/-- Objective names, including the pseudo-objective "Idea" used by
`_choose_intention`. -/
inductive ObjName
  | Idea | Recover | Stabilize | Explore | Progress
  deriving DecidableEq, Repr

/-- Idea titles appended by `_update_idees` and `_update_competence`
(French strings in the source, modelled by identity). -/
inductive IdeaKind
  | tester_approche_ambitieuse
  | eviter_temporairement (a : Action)
  | exploration_legere_ciblee
  | changer_approche
  | capitaliser (a : Action)
  deriving DecidableEq, Repr

/-- Idea context strings of `_update_idees` / `_update_competence`. -/
inductive IdeaCtx
  | evenement (e : RareEvt)
  | tension_elevee
  | curiosite_haute
  | stagnation_detectee
  | montee_de_competence
  deriving DecidableEq, Repr

/-- Capacities named in `Permissions` and its call sites. -/
inductive Capacite
  | simulate | log | snapshot | llm | network | filesystem_delete | shell_exec
  deriving DecidableEq, Repr

/-- `max(0.0, min(1.0, v))`, the clamp used by `EtatInterne.borner` and
`EtatMonde.borner`. -/
def clamp01 (x : ℚ) : ℚ := max 0 (min 1 x)

/-- `ContrainteExecutionLocale` (offline-mode flags checked by `verifier`). -/
structure ContrainteExecutionLocale where
  hors_ligne_strict : Bool := true
  api_externe_autorisee : Bool := false
  deriving DecidableEq, Repr

/-- One entry of `Permissions.refus_log`. -/
structure Refus where
  tick : ℕ
  capacite : Capacite
  deriving DecidableEq, Repr

/-- `Permissions`: capacity whitelist, forbidden set, denial log. -/
structure Permissions where
  whitelist_capacites : Capacite → Bool
  sensibles_interdites : Capacite → Bool
  refus_log : List Refus

/-- Default `Permissions` of the dataclass field factories. -/
def Permissions.default : Permissions where
  whitelist_capacites := fun c =>
    match c with
    | .simulate | .log | .snapshot | .llm => true
    | _ => false
  sensibles_interdites := fun c =>
    match c with
    | .network | .filesystem_delete | .shell_exec => true
    | _ => false
  refus_log := []

/-- `Permissions.autorise`: returns the boolean and the (possibly extended)
denial log. -/
def Permissions.autorise (p : Permissions) (capacite : Capacite) (tick : ℕ) :
    Bool × Permissions :=
  if p.sensibles_interdites capacite || !(p.whitelist_capacites capacite) then
    (false, { p with refus_log := p.refus_log ++ [⟨tick, capacite⟩] })
  else
    (true, p)

/-- `EtatInterne`: the 7 internal-state scalars. -/
structure EtatInterne where
  energy : ℚ := 0.70
  clarity : ℚ := 0.65
  stability : ℚ := 0.70
  curiosity : ℚ := 0.60
  risk_tolerance : ℚ := 0.45
  fatigue : ℚ := 0.25
  stress : ℚ := 0.25
  deriving DecidableEq, Repr

/-- `EtatInterne.borner`. -/
def EtatInterne.borner (e : EtatInterne) : EtatInterne where
  energy := clamp01 e.energy
  clarity := clamp01 e.clarity
  stability := clamp01 e.stability
  curiosity := clamp01 e.curiosity
  risk_tolerance := clamp01 e.risk_tolerance
  fatigue := clamp01 e.fatigue
  stress := clamp01 e.stress

/-- `EtatMonde`: the 5 world-state scalars. -/
structure EtatMonde where
  bruit_instabilite : ℚ := 0.35
  opportunites : ℚ := 0.55
  danger : ℚ := 0.30
  nouveaute : ℚ := 0.70
  stabilite_globale : ℚ := 0.60
  deriving DecidableEq, Repr

/-- `EtatMonde.borner`. -/
def EtatMonde.borner (w : EtatMonde) : EtatMonde where
  bruit_instabilite := clamp01 w.bruit_instabilite
  opportunites := clamp01 w.opportunites
  danger := clamp01 w.danger
  nouveaute := clamp01 w.nouveaute
  stabilite_globale := clamp01 w.stabilite_globale

/-- `IntentionActive`. -/
structure IntentionActive where
  nom : IntentNom
  objectif_lie : ObjName
  actions_preferees : List Action
  tick_fin : ℕ
  cancel_on_critical : Bool := true
  deriving DecidableEq, Repr

/-- `Idee`. -/
structure Idee where
  intitule : IdeaKind
  contexte : IdeaCtx
  cout_estime : ℚ
  risque_estime : ℚ
  priorite : ℚ
  recence_tick : ℕ
  deriving DecidableEq, Repr

/-- One aggregate of `MemoireAction.contexts` ({score, freq, gravite}). -/
structure CtxStat where
  score : ℚ := 0.0
  freq : ℚ := 0.0
  gravite : ℚ := 0.0
  deriving DecidableEq, Repr

/-- `MemoireAction` (per-action long-term memory). -/
structure MemoireAction where
  n_total : ℕ := 0
  n_success : ℕ := 0
  n_fail : ℕ := 0
  last_tick : ℕ := 0
  ema_reward : ℚ := 0.0
  ema_cost : ℚ := 0.0
  recent_fail_streak : ℕ := 0
  recent_success_streak : ℕ := 0
  avoid_until_tick : ℕ := 0
  contexts : Ctx → Option CtxStat := fun _ => Option.none

/-- `Competence`. -/
structure Competence where
  niveau : ℕ := 1
  experience : ℚ := 0.0
  seuil : ℚ := 1.0
  deriving DecidableEq, Repr

/-- `SouvenirMarquant`; `state` is `asdict(self.etat)` at append time. -/
structure SouvenirMarquant where
  type : RareEvt
  gravite : ℚ
  action : Action
  tick : ℕ
  state : EtatInterne
  deriving DecidableEq, Repr

/-- One short-term event dict appended by `boucle_de_vie`. -/
structure Evt where
  tick : ℕ
  action : Action
  success : Bool
  reward : ℚ
  cost : ℚ
  rare_event : RareEvt
  stress : ℚ
  energy : ℚ
  deriving DecidableEq, Repr

/-- `Memoire`. -/
structure Memoire where
  court_terme : List Evt := []
  long_terme : Action → MemoireAction := fun _ => {}
  souvenirs_marquants : List SouvenirMarquant := []
  routines : Action → Phase → ℕ := fun _ _ => 0

/-- `Memoire.enregistrer_evenement` (append, evict oldest beyond 80). -/
def Memoire.enregistrer_evenement (m : Memoire) (evenement : Evt) : Memoire :=
  let l := m.court_terme ++ [evenement]
  { m with court_terme := if 80 < l.length then l.tail else l }

/-- `ActionProfile`. -/
structure ActionProfile where
  base_risk : ℚ
  energy_cost : ℚ
  clarity_cost : ℚ
  stability_gain : ℚ
  knowledge_gain : ℚ
  fatigue_gain : ℚ
  stress_on_fail : ℚ
  deriving DecidableEq, Repr

/-- The fixed profile table of `MondeSimule.standard`. -/
def action_profiles : Action → ActionProfile
  | .rest      => ⟨0.02, -0.10, -0.04, 0.05, 0.00, -0.10, 0.04⟩
  | .organize  => ⟨0.08, 0.08, 0.05, 0.10, 0.03, 0.04, 0.06⟩
  | .practice  => ⟨0.14, 0.12, 0.09, 0.05, 0.12, 0.08, 0.09⟩
  | .explore   => ⟨0.22, 0.16, 0.10, 0.03, 0.18, 0.09, 0.12⟩
  | .reflect   => ⟨0.05, 0.05, -0.03, 0.08, 0.09, -0.02, 0.05⟩
  | .idle      => ⟨0.01, -0.03, -0.02, 0.02, 0.00, -0.05, 0.03⟩
  | .challenge => ⟨0.35, 0.20, 0.16, 0.07, 0.20, 0.12, 0.18⟩

/-- The four objectives of `_build_objectifs` (closed enumeration; the
source stores them as lambda-valued dataclasses in this fixed order). -/
inductive Objectif
  | Recover | Stabilize | Explore | Progress
  deriving DecidableEq, Repr

/-- Objective priority weights. -/
def Objectif.priority : Objectif → ℚ
  | .Recover => 1.0
  | .Stabilize => 0.9
  | .Explore => 0.6
  | .Progress => 0.5

/-- Objective activation predicates (the lambdas of `_build_objectifs`);
`rec`/`stb` are the two flags passed by `_active_objectifs`. -/
def Objectif.isActive (o : Objectif) (s : EtatInterne) (rec stb : Bool) : Bool :=
  match o with
  | .Recover => decide (s.energy < 0.35) || decide (s.clarity < 0.35) || decide (s.fatigue > 0.70)
  | .Stabilize => decide (s.stability < 0.45) || decide (s.stress > 0.65)
  | .Explore => decide (s.curiosity > 0.60) && decide (s.energy > 0.50)
      && decide (s.stability > 0.55) && decide (s.stress < 0.70)
  | .Progress => !(rec || stb)

/-- Objective action-affinity functions (`fit_from` tables). -/
def Objectif.fit (o : Objectif) (a : Action) : ℚ :=
  match o, a with
  | .Recover, .rest => 1.0
  | .Recover, .idle => 0.5
  | .Recover, .reflect => 0.3
  | .Stabilize, .organize => 1.0
  | .Stabilize, .reflect => 0.6
  | .Stabilize, .rest => 0.4
  | .Explore, .explore => 1.0
  | .Explore, .challenge => 0.3
  | .Progress, .practice => 1.0
  | .Progress, .reflect => 0.4
  | .Progress, .organize => 0.2
  | _, _ => 0.0

/-- Objective name of each `Objectif` (for membership tests on names). -/
def Objectif.name : Objectif → ObjName
  | .Recover => .Recover
  | .Stabilize => .Stabilize
  | .Explore => .Explore
  | .Progress => .Progress

/-- The fixed objective list in declaration order. -/
def objectifsList : List Objectif := [.Recover, .Stabilize, .Explore, .Progress]

/-- Router state persisted in snapshots (`ModelRouter` fields referenced by
`snapshot_dict`/`load_snapshot`; the router lives in `kaguya/llm.py`). -/
structure RouterState where
  auto_mode : Bool := true
  forced_model_key : Option String := Option.none
  current_mode : Mode := .realtime
  keep_warm : Bool := true
  deriving DecidableEq, Repr

/-- The meta-learning multipliers (`self.meta` dict with keys
"audace" and "diversite"). -/
structure Meta where
  audace : ℚ := 1.0
  diversite : ℚ := 1.0
  deriving DecidableEq, Repr

/-- `_state_snapshot()`. -/
structure StateSnap where
  tick : ℕ
  phase : Phase
  etat : EtatInterne
  monde : EtatMonde
  intention : Option IntentionActive
  meta : Meta
  deriving DecidableEq, Repr

/-- The result dict of `_executer_action`. -/
structure ExecResult where
  success : Bool
  observed_reward : ℚ
  observed_cost : ℚ
  risk_effective : ℚ
  rare_event : RareEvt
  deriving DecidableEq, Repr

/-- Entries of `journal_debug`: the decision record appended by
`choisir_action` and the cycle record appended by `boucle_de_vie`. -/
inductive JournalEntry
  | decision (tick : ℕ) (intention : Option IntentionActive)
      (scores : List (Action × ℚ)) (chosen : Action)
  | cycle (tick : ℕ) (before after : StateSnap) (result : ExecResult)
  deriving DecidableEq, Repr

/-- Data of one `journal_humain` line (`_human_log` renders these fields
into a French sentence; only the data is modelled). -/
structure HumanLog where
  cap : Option IntentNom
  action : Action
  success : Bool
  rare_event : RareEvt
  deriving DecidableEq, Repr

/-- The dashboard dict of `_compute_dashboard`. -/
structure Dashboard where
  fail_rate : ℚ
  action_diversity : ℕ
  avg_stress : ℚ
  avg_energy : ℚ
  top_actions : List (Action × ℕ)
  top_events : List (RareEvt × ℕ)
  deriving DecidableEq, Repr

/-- One day summary appended by `_day_summary_if_needed`. -/
structure DaySummary where
  day_index : ℕ
  intentions : Option IntentNom
  skills : Action → ℕ
  dashboard : Dashboard

/-- The return values of `boucle_de_vie` ("Boucle en pause.",
"Action refusée par permissions.", or the human log line). -/
inductive BoucleMsg
  | paused
  | refused
  | log (h : HumanLog)
  deriving DecidableEq, Repr

/-- External environment of one engine: the random stream (one rational per
draw, covering every seed of `random.Random`), the wall-clock day/night
oracle of `_compute_pc_day_phase` and the `time.monotonic` clock, both
sampled once per tick. -/
structure Env where
  rand : ℕ → ℚ
  pcNight : ℕ → Bool
  mono : ℕ → ℚ

/-- The full engine state (`CerveauKaguya` instance attributes). -/
structure Engine where
  rngIdx : ℕ
  last_tick_monotonic : ℚ
  contrainte_locale : ContrainteExecutionLocale
  permissions : Permissions
  etat : EtatInterne
  etat_monde : EtatMonde
  tick : ℕ
  tick_seconds : ℚ
  sim_minutes : ℚ
  sim_day_minutes : ℚ
  sim_day_phase : Phase
  pc_day_phase : PcPhase
  last_day_index : ℕ
  is_paused : Bool
  intention_active : Option IntentionActive
  idees_backlog : List Idee
  memoire : Memoire
  journal_humain : List HumanLog
  journal_debug : List JournalEntry
  journal_evolutif : List DaySummary
  dashboard_history : List DaySummary
  last_action_tick : Action → ℕ
  competences : Action → Competence
  action_history : List Action
  meta : Meta
  cooldowns : Action → ℕ
  router : RouterState

namespace Engine

/-- Advancing the random cursor by one draw (`random.Random` consumption). -/
def next (st : Engine) : Engine := { st with rngIdx := st.rngIdx + 1 }

/-- The value of the pending `self._rng.random()` draw. -/
def dval (σ : ℕ → ℚ) (st : Engine) : ℚ := σ st.rngIdx

/-- The value of the pending `self._rng.uniform(a, b)` draw. -/
def uval (σ : ℕ → ℚ) (a b : ℚ) (st : Engine) : ℚ := a + (b - a) * σ st.rngIdx

/-- The value of the pending `self._rng.randint(a, b)` draw, mapped into
`[a, b]`. -/
def rival (σ : ℕ → ℚ) (a b : ℕ) (st : Engine) : ℕ :=
  a + min (b - a) (σ st.rngIdx * ((b : ℚ) - (a : ℚ) + 1)).floor.toNat

end Engine

/-- `python -- list(self.monde.action_profiles.keys())` is `actionsList`;
the last-N slice `xs[-n:]`. -/
def lastN {α : Type} (n : ℕ) (l : List α) : List α := l.drop (l.length - n)

/-- First argmax of a key over a nonempty traversal, mirroring Python
`max(xs, key=f)` (keeps the earliest element on ties). -/
def firstArgmax {α : Type} (f : α → ℚ) (a : α) : List α → α
  | [] => a
  | b :: t => if f b > f a then firstArgmax f b t else firstArgmax f a t

/-- First argmin of a `ℕ`-valued key, mirroring Python `min(xs, key=f)`. -/
def firstArgminN {α : Type} (f : α → ℕ) (a : α) : List α → α
  | [] => a
  | b :: t => if f b < f a then firstArgminN f b t else firstArgminN f a t

/-- First argmax of a `ℕ`-valued key, mirroring Python `max(xs, key=f)`. -/
def firstArgmaxN {α : Type} (f : α → ℕ) (a : α) : List α → α
  | [] => a
  | b :: t => if f b > f a then firstArgmaxN f b t else firstArgmaxN f a t

/-- Stable insertion for descending sort by a rational key (an element is
placed after every earlier element whose key is ≥ its own), mirroring the
stable descending Python `sorted(..., reverse=True)`. -/
def insertDescBy {α : Type} (k : α → ℚ) (x : α) : List α → List α
  | [] => [x]
  | y :: ys => if k x > k y then x :: y :: ys else y :: insertDescBy k x ys

/-- Stable descending sort by a rational key. -/
def sortDescBy {α : Type} (k : α → ℚ) (l : List α) : List α :=
  l.foldl (fun acc x => insertDescBy k x acc) []

/-- Floating `%` with a positive divisor (`x % y` of Python floats):
`x - y*⌊x/y⌋`. -/
def fmod (x y : ℚ) : ℚ := x - y * (⌊x / y⌋ : ℤ)

/-- `EMA_ALPHA` module constant. -/
def EMA_ALPHA : ℚ := 0.15

/-- `SIM_MIN_PER_TICK` module constant. -/
def SIM_MIN_PER_TICK : ℚ := 5.0

/-- `CONSOLIDATION_EVERY_TICKS` module constant. -/
def CONSOLIDATION_EVERY_TICKS : ℕ := 48

/-- `AUTOSAVE_EVERY_TICKS` module constant. -/
def AUTOSAVE_EVERY_TICKS : ℕ := 60

/-- `SNAPSHOT_VERSION` module constant. -/
def SNAPSHOT_VERSION : ℤ := 3

/-- `round(x, 3)` (Python rounding of the dashboard; the tie-breaking of
the banker rounding of Python floats is approximated by `round`). -/
def round3 (x : ℚ) : ℚ := ((round (x * 1000) : ℤ) : ℚ) / 1000

/-- The dict of `_skill_modifiers`. -/
structure SkillMods where
  risk_mult : ℚ
  energy_mult : ℚ
  reward_mult : ℚ
  deriving DecidableEq, Repr

/-- `_compute_sim_day_phase` (applied to `sim_day_minutes`). -/
def computeSimDayPhase (m : ℚ) : Phase :=
  if m < 360 then .night
  else if m < 720 then .morning
  else if m < 1080 then .day
  else .evening

/-- `pickEvent` realises `random.choice` over the five event names. -/
def pickEvent (u : ℚ) : RareEvt :=
  match min 4 (u * 5).floor.toNat with
  | 0 => .discovery
  | 1 => .near_failure
  | 2 => .success_major
  | 3 => .stress_spike
  | _ => .opportunity_exceptionnelle

/-- The recency/diversity bonus term of `_score_action`:
`0.2 * min(1.0, (tick - last_action_tick[action]) / 50.0) * meta["diversite"]`. -/
def bonusTerm (tick last : ℕ) (diversite : ℚ) : ℚ :=
  0.2 * min 1 (((tick : ℚ) - (last : ℚ)) / 50) * diversite

namespace Engine

/-- `_tick_time_update` (wall clock supplied by the environment streams). -/
def tick_time_update (env : Env) (st : Engine) : Engine :=
  let tick' := st.tick + 1
  let now := env.mono tick'
  let sim_minutes' := st.sim_minutes + SIM_MIN_PER_TICK
  let sdm := fmod sim_minutes' 1440.0
  { st with
    tick_seconds := now - st.last_tick_monotonic
    last_tick_monotonic := now
    tick := tick'
    sim_minutes := sim_minutes'
    sim_day_minutes := sdm
    sim_day_phase := computeSimDayPhase sdm
    pc_day_phase := if env.pcNight tick' then .night else .day }

/-- `_evolve_world`. -/
def evolve_world (σ : ℕ → ℚ) (st : Engine) : Engine :=
  let w := st.etat_monde
  let u1 := st.uval σ (-0.02) 0.02
  let st := st.next
  let bruit := w.bruit_instabilite + u1
  let u2 := st.uval σ (-0.01) 0.01
  let st := st.next
  let danger := w.danger + u2 + bruit * 0.003
  let u3 := st.uval σ (-0.01) 0.01
  let st := st.next
  let opportunites := w.opportunites + u3 - danger * 0.002 + 0.002
  let nouveaute := w.nouveaute - 0.004
  let u4 := st.uval σ (-0.01) 0.01
  let st := st.next
  let stabilite := w.stabilite_globale + u4 - bruit * 0.004
  { st with etat_monde :=
      (⟨bruit, opportunites, danger, nouveaute, stabilite⟩ : EtatMonde).borner }

/-- `_apply_action_world_effect`. -/
def apply_action_world_effect (action : Action) (success : Bool) (st : Engine) : Engine :=
  let w := st.etat_monde
  let g : ℚ := if success then 1.0 else 0.5
  let w :=
    match action with
    | .organize => { w with stabilite_globale := w.stabilite_globale + 0.03 * g,
                            bruit_instabilite := w.bruit_instabilite - 0.025 * g }
    | .explore => { w with nouveaute := w.nouveaute + 0.06 * g,
                           opportunites := w.opportunites + 0.03 * g }
    | .challenge => { w with opportunites := w.opportunites + 0.04 * g,
                             danger := w.danger + 0.03 * (2 - g) }
    | .idle => { w with nouveaute := w.nouveaute - 0.01 }
    | _ => w
  { st with etat_monde := w.borner }

/-- `_passive_recovery`. -/
def passive_recovery (st : Engine) : Engine :=
  let d : ℚ × ℚ × ℚ × ℚ :=
    if st.sim_day_phase = .night then (0.030, 0.020, -0.025, -0.012)
    else (0.012, 0.008, -0.010, -0.006)
  let boost : ℚ := if st.pc_day_phase = .night then 1.10 else 1.0
  let et := st.etat
  { st with etat :=
      ({ et with
         energy := et.energy + d.1 * boost
         clarity := et.clarity + d.2.1 * boost
         fatigue := et.fatigue + d.2.2.1 * boost
         stress := et.stress + d.2.2.2 * boost } : EtatInterne).borner }

/-- `_active_objectifs`. -/
def active_objectifs (st : Engine) : List Objectif :=
  let recA := Objectif.Recover.isActive st.etat false false
  let stbA := Objectif.Stabilize.isActive st.etat recA false
  objectifsList.filter (fun o => o.isActive st.etat recA stbA)

/-- `_intention_invalid`. -/
def intention_invalid (st : Engine) : Bool :=
  match st.intention_active with
  | Option.none => true
  | some i =>
      decide (st.tick > i.tick_fin) ||
      (i.cancel_on_critical &&
        (decide (st.etat.energy < 0.15) || decide (st.etat.stress > 0.90)))

/-- `_choose_intention`. -/
def choose_intention (σ : ℕ → ℚ) (actifs : List Objectif) (st : Engine) : Engine :=
  if st.intention_active.isSome && !st.intention_invalid then st
  else
    let names := actifs.map Objectif.name
    if (match st.idees_backlog with
        | i :: _ => decide (i.priorite > 0.7)
        | [] => false) then
      let n := st.rival σ 5 12
      let st' := st.next
      let i : IntentionActive := ⟨.tester_une_idee, .Idea, [.explore, .practice, .reflect], st'.tick + n, true⟩
      { st' with intention_active := some i }
    else if names.contains .Recover then
      let n := st.rival σ 6 12
      let st' := st.next
      let i : IntentionActive := ⟨.recuperer, .Recover, [.rest, .reflect, .idle], st'.tick + n, true⟩
      { st' with intention_active := some i }
    else if names.contains .Stabilize then
      let n := st.rival σ 6 12
      let st' := st.next
      let i : IntentionActive := ⟨.stabiliser, .Stabilize, [.organize, .reflect, .rest], st'.tick + n, true⟩
      { st' with intention_active := some i }
    else if st.etat_monde.nouveaute > 0.55 then
      let n := st.rival σ 8 20
      let st' := st.next
      let i : IntentionActive := ⟨.explorer, .Explore, [.explore, .reflect, .practice], st'.tick + n, true⟩
      { st' with intention_active := some i }
    else
      let n := st.rival σ 6 16
      let st' := st.next
      let i : IntentionActive := ⟨.progresser, .Progress, [.practice, .organize, .reflect], st'.tick + n, true⟩
      { st' with intention_active := some i }

/-- `_gated_actions`. -/
def gated_actions (st : Engine) : List Action :=
  let cands := actionsList.filter (fun a =>
    !(decide ((st.memoire.long_terme a).avoid_until_tick > st.tick) ||
      decide (st.cooldowns a > st.tick)))
  let cands :=
    if st.etat.energy < 0.20 then
      cands.filter (fun a => [Action.rest, .idle, .reflect].contains a)
    else cands
  let cands :=
    if st.etat.stability < 0.30 then cands.filter (fun a => !(a == Action.challenge))
    else cands
  let cands :=
    if st.etat.stress > 0.85 then cands.filter (fun a => !(a == Action.challenge))
    else cands
  match st.intention_active with
  | some i =>
      let preferred := cands.filter (fun a => i.actions_preferees.contains a)
      if !preferred.isEmpty then preferred
      else if !cands.isEmpty then cands else [.rest]
  | Option.none => if !cands.isEmpty then cands else [.rest]

/-- `_skill_modifiers`. -/
def skill_modifiers (st : Engine) (action : Action) : SkillMods :=
  let lvl := (st.competences action).niveau
  ⟨max 0.75 (1 - 0.02 * ((lvl : ℚ) - 1)),
   max 0.78 (1 - 0.015 * ((lvl : ℚ) - 1)),
   min 1.25 (1 + 0.02 * ((lvl : ℚ) - 1))⟩

/-- `_anti_loop_penalty` (returns the penalty and the state, whose
`cooldowns` may have been set as a side effect). -/
def anti_loop_penalty (action : Action) (st : Engine) : ℚ × Engine :=
  let window := lastN 30 st.action_history
  let repeatN := window.count action
  if repeatN ≥ 12 then
    (0.30, { st with cooldowns := Function.update st.cooldowns action (st.tick + 5) })
  else
    (0.02 * (repeatN : ℚ), st)

/-- `_detect_stagnation`. -/
def detect_stagnation (st : Engine) : Bool :=
  let window := lastN 30 st.memoire.court_terme
  if window.length < 12 then false
  else
    let any_event := window.any (fun e => !(e.rare_event == RareEvt.none))
    let novelty_gain := st.etat_monde.nouveaute - 0.5
    let skill_progress := (actionsList.filter (fun a => decide (1 < (st.competences a).niveau))).length
    !any_event && decide (novelty_gain < 0.02) && decide (skill_progress ≤ 1)

/-- `_context_key`. -/
def context_key (st : Engine) : Ctx :=
  if st.etat_monde.danger > 0.6 then .danger_high
  else if st.etat_monde.opportunites > 0.6 then .opportunity_high
  else .neutral

/-- `_context_bias`. -/
def context_bias (st : Engine) (action : Action) : ℚ :=
  match (st.memoire.long_terme action).contexts st.context_key with
  | Option.none => 0.0
  | some d => d.score * 0.05 + min 0.08 (d.freq * 0.01) + min 0.06 (d.gravite * 0.01)

/-- `_score_action` (returns the score and the state: the anti-loop call may
set a cooldown, and the noise term consumes one draw). -/
def score_action (σ : ℕ → ℚ) (action : Action) (actifs : List Objectif) (st : Engine) :
    ℚ × Engine :=
  let p := action_profiles action
  let mem := st.memoire.long_terme action
  let mods := st.skill_modifiers action
  let reward := (p.knowledge_gain + p.stability_gain) * mods.reward_mult +
    0.03 * st.etat_monde.opportunites
  let cost := p.energy_cost * mods.energy_mult + p.clarity_cost + p.fatigue_gain * 0.6
  let score := reward - cost
  let score := score + (actifs.map (fun o => o.priority * o.fit action)).sum
  let score := score + 0.6 * mem.ema_reward - 0.6 * mem.ema_cost
  let score := score - 0.8 * (mem.recent_fail_streak : ℚ)
  let score := score + 0.25 * (mem.recent_success_streak : ℚ)
  let score := score + bonusTerm st.tick (st.last_action_tick action) st.meta.diversite
  let risk := p.base_risk * mods.risk_mult + st.etat.stress * 0.25 -
    st.etat.stability * 0.15 + st.etat_monde.danger * 0.15
  let score := score - (1 - st.etat.risk_tolerance) * 0.6 * risk * st.meta.audace
  let pr := st.anti_loop_penalty action
  let st1 := pr.2
  let score := score - pr.1
  let score := score + st1.context_bias action
  let noise := st1.uval σ (-0.05) 0.05
  (score + noise, st1.next)

/-- The score map of `choisir_action` in candidate order. -/
def scoreList (σ : ℕ → ℚ) (actifs : List Objectif) (cands : List Action) (st : Engine) :
    List (Action × ℚ) × Engine :=
  cands.foldl
    (fun acc a =>
      let pr := score_action σ a actifs acc.2
      (acc.1 ++ [(a, pr.1)], pr.2))
    ([], st)

/-- `choisir_action`.  `max(scores, key=scores.get)` returns the first key
of maximal score in insertion (candidate) order; the candidate list is never
empty (`_gated_actions` falls back to `["rest"]`), so the default of the
empty match arm is unreachable. -/
def choisir_action (σ : ℕ → ℚ) (st : Engine) : Action × Engine :=
  let actifs := st.active_objectifs
  let st1 := choose_intention σ actifs st
  let cands := st1.gated_actions
  let pr := scoreList σ actifs cands st1
  let scores := pr.1
  let st2 := pr.2
  let chosen :=
    match scores with
    | [] => Action.rest
    | x :: t => (firstArgmax (fun pr => pr.2) x t).1
  (chosen,
   { st2 with journal_debug :=
      st2.journal_debug ++ [.decision st2.tick st2.intention_active scores chosen] })

/-- `_update_idees`. -/
def update_idees (rare : RareEvt) (action : Action) (st : Engine) : Engine :=
  let st :=
    if rare == RareEvt.discovery || rare == RareEvt.success_major then
      { st with idees_backlog := st.idees_backlog ++
          [⟨.tester_approche_ambitieuse, .evenement rare, 0.45, 0.55, 0.80, st.tick⟩] }
    else if rare == RareEvt.near_failure || rare == RareEvt.stress_spike then
      { st with idees_backlog := st.idees_backlog ++
          [⟨.eviter_temporairement action, .tension_elevee, 0.20, 0.25, 0.90, st.tick⟩] }
    else st
  let st :=
    if st.etat.curiosity > 0.78 then
      { st with idees_backlog := st.idees_backlog ++
          [⟨.exploration_legere_ciblee, .curiosite_haute, 0.35, 0.40, 0.70, st.tick⟩] }
    else st
  let st :=
    if st.detect_stagnation then
      { st with idees_backlog := st.idees_backlog ++
          [⟨.changer_approche, .stagnation_detectee, 0.30, 0.30, 0.95, st.tick⟩] }
    else st
  { st with idees_backlog :=
      (sortDescBy (fun i => i.priorite - 0.002 * ((st.tick : ℚ) - (i.recence_tick : ℚ)))
        st.idees_backlog).take 25 }

/-- `_roll_rare_event`.  Note: the source appends the `SouvenirMarquant`
with `asdict(self.etat)` one line BEFORE calling `self.etat.borner()`, so
the stored snapshot is the unclamped state. -/
def roll_rare_event (σ : ℕ → ℚ) (action : Action) (st : Engine) : RareEvt × Engine :=
  let u := st.dval σ
  let st0 := st.next
  if u > min 0.25 (0.03 + st0.etat_monde.bruit_instabilite * 0.08) then
    (.none, st0)
  else
    let c := st0.dval σ
    let st1 := st0.next
    let event := pickEvent c
    let g := st1.uval σ 0.45 1.0
    let st2 := st1.next
    let et := st2.etat
    let et' :=
      match event with
      | .discovery => { et with curiosity := et.curiosity + 0.12 * g }
      | .near_failure => { et with stress := et.stress + 0.14 * g,
                                   stability := et.stability - 0.06 * g }
      | .success_major => { et with stress := et.stress - 0.08 * g,
                                    risk_tolerance := et.risk_tolerance + 0.05 * g }
      | .stress_spike => { et with stress := et.stress + 0.18 * g }
      | _ => et
    let w' :=
      match event with
      | .discovery | .near_failure | .success_major | .stress_spike => st2.etat_monde
      | _ => { st2.etat_monde with
               opportunites := st2.etat_monde.opportunites + 0.12 * g }
    (event,
     { st2 with
       memoire := { st2.memoire with souvenirs_marquants :=
         st2.memoire.souvenirs_marquants ++ [⟨event, g, action, st2.tick, et'⟩] }
       etat := et'.borner
       etat_monde := w'.borner })

/-- The effective risk of `_executer_action` (clamped). -/
def exec_risk (action : Action) (st : Engine) : ℚ :=
  let p := action_profiles action
  let mods := st.skill_modifiers action
  clamp01 (p.base_risk * mods.risk_mult + st.etat.stress * 0.2 -
    st.etat.stability * 0.1 + st.etat_monde.danger * 0.2)

/-- The Bernoulli outcome draw of `_executer_action`
(`success = self._rng.random() > risk`). -/
def exec_success (σ : ℕ → ℚ) (action : Action) (st : Engine) : Bool :=
  decide (st.dval σ > exec_risk action st)

/-- The internal-state mutations of `_executer_action` (each profile delta
applied in source order, then `borner`), together with the draw consumption. -/
def exec_apply_etat (σ : ℕ → ℚ) (action : Action) (st : Engine) : Engine :=
  let p := action_profiles action
  let mods := st.skill_modifiers action
  let success := exec_success σ action st
  let st0 := st.next
  let et := st0.etat
  let et := { et with energy := et.energy - p.energy_cost * mods.energy_mult }
  let et := { et with clarity := et.clarity - p.clarity_cost }
  let et := { et with stability := et.stability + p.stability_gain * (if success then 1.0 else 0.4) }
  let et := { et with curiosity := et.curiosity + p.knowledge_gain * 0.05 +
    st0.etat_monde.nouveaute * 0.02 }
  let et := { et with fatigue := et.fatigue + p.fatigue_gain }
  let et :=
    if success then { et with stress := et.stress - 0.02 }
    else { et with stress := et.stress + p.stress_on_fail + st0.etat_monde.danger * 0.05 }
  { st0 with etat := et.borner }

/-- `_executer_action` (assembled from the pieces above, in source order). -/
def executer_action (σ : ℕ → ℚ) (action : Action) (st : Engine) : ExecResult × Engine :=
  let p := action_profiles action
  let mods := st.skill_modifiers action
  let risk := exec_risk action st
  let success := exec_success σ action st
  let st1 := exec_apply_etat σ action st
  let st2 := apply_action_world_effect action success st1
  let pr := roll_rare_event σ action st2
  let st4 := update_idees pr.1 action pr.2
  (⟨success,
    (p.knowledge_gain + p.stability_gain) * (if success then 1.0 else 0.25),
    p.energy_cost * mods.energy_mult + p.clarity_cost + p.fatigue_gain * 0.6,
    risk, pr.1⟩, st4)

end Engine

/-- The atomic experience/level step of `_update_competence` on one
`Competence` record. -/
def Competence.step (s : Competence) (success : Bool) : Competence :=
  let s := { s with experience := s.experience + (if success then 0.30 else 0.12) }
  if s.experience ≥ s.seuil then
    { niveau := s.niveau + 1, experience := s.experience - s.seuil, seuil := s.seuil * 1.25 }
  else s

namespace Engine

/-- `_update_competence`. -/
def update_competence (action : Action) (success : Bool) (st : Engine) : Engine :=
  let before := (st.competences action).niveau
  let s := (st.competences action).step success
  let st' := { st with competences := Function.update st.competences action s }
  if s.niveau > before then
    { st' with idees_backlog := st'.idees_backlog ++
        [⟨.capitaliser action, .montee_de_competence, 0.30, 0.35, 0.65, st'.tick⟩] }
  else st'

/-- `_update_memoire_long_terme`. -/
def update_memoire_long_terme (action : Action) (result : ExecResult) (st : Engine) : Engine :=
  let mem := st.memoire.long_terme action
  let success := result.success
  let mem := { mem with n_total := mem.n_total + 1, last_tick := st.tick }
  let mem :=
    if success then
      { mem with n_success := mem.n_success + 1,
                 recent_success_streak := mem.recent_success_streak + 1,
                 recent_fail_streak := 0 }
    else
      let m := { mem with n_fail := mem.n_fail + 1,
                          recent_fail_streak := mem.recent_fail_streak + 1,
                          recent_success_streak := 0 }
      if st.etat.stress > 0.75 then { m with avoid_until_tick := st.tick + 40 } else m
  let r := result.observed_reward
  let c := result.observed_cost
  let mem := { mem with ema_reward := (1 - EMA_ALPHA) * mem.ema_reward + EMA_ALPHA * r,
                        ema_cost := (1 - EMA_ALPHA) * mem.ema_cost + EMA_ALPHA * c }
  let ctx := st.context_key
  let cur := (mem.contexts ctx).getD {}
  let cur : CtxStat :=
    { score := 0.8 * cur.score + 0.2 * (r - c)
      freq := cur.freq + 1
      gravite := cur.gravite + (if result.rare_event == RareEvt.none then 0 else 1) }
  let mem' := { mem with contexts := Function.update mem.contexts ctx (some cur) }
  { st with memoire :=
      { st.memoire with long_terme := Function.update st.memoire.long_terme action mem' } }

/-- `_meta_learning`. -/
def meta_learning (st : Engine) : Engine :=
  let w := lastN 20 st.memoire.court_terme
  if w.isEmpty then st
  else
    let n : ℚ := w.length
    let fail_rate := ((w.filter (fun e => e.success == false)).length : ℚ) / n
    let avg_reward := (w.map Evt.reward).sum / n
    let ratio_rest := ((w.filter (fun e => e.action == Action.rest)).length : ℚ) / n
    let m := st.meta
    let m :=
      if fail_rate > 0.45 then { m with audace := max 0.85 (m.audace - 0.02) }
      else if fail_rate < 0.25 then { m with audace := min 1.10 (m.audace + 0.01) }
      else m
    let et :=
      if avg_reward < 0.05 then { st.etat with curiosity := st.etat.curiosity + 0.01 }
      else st.etat
    let m :=
      if ratio_rest > 0.40 then { m with diversite := min 1.20 (m.diversite + 0.03) }
      else { m with diversite := max 0.90 (m.diversite - 0.01) }
    { st with meta := m, etat := et.borner }

/-- `_consolidation_periodique`. -/
def consolidation_periodique (st : Engine) : Engine :=
  if st.tick % CONSOLIDATION_EVERY_TICKS ≠ 0 then st
  else
    let w := lastN 80 st.action_history
    if w.isEmpty then st
    else
      let counts := fun a => w.count a
      let dom := firstArgmaxN counts .rest
        [.organize, .practice, .explore, .reflect, .idle, .challenge]
      let low := firstArgminN counts .rest
        [.organize, .practice, .explore, .reflect, .idle, .challenge]
      let et := st.etat
      let et :=
        if dom == Action.explore || dom == Action.challenge then
          { et with risk_tolerance := et.risk_tolerance + 0.015,
                    curiosity := et.curiosity + 0.010 }
        else et
      let et :=
        if dom == Action.organize || dom == Action.reflect || dom == Action.rest then
          { et with stability := et.stability + 0.012 }
        else et
      let et :=
        if low == Action.explore || low == Action.challenge then
          { et with curiosity := et.curiosity - 0.008 }
        else et
      { st with
        etat := et.borner
        memoire := { st.memoire with souvenirs_marquants :=
          st.memoire.souvenirs_marquants.filter (fun s => decide (s.gravite ≥ 0.55)) } }

/-- `_compute_dashboard`.  The iteration order of the Python set
comprehensions is unspecified; distinct keys are canonicalised here in
declaration order before the (stable) sort by count. -/
def compute_dashboard (st : Engine) : Dashboard :=
  let w := lastN 60 st.memoire.court_terme
  if w.isEmpty then ⟨0.0, 0, st.etat.stress, st.etat.energy, [], []⟩
  else
    let n : ℚ := w.length
    let fail_rate := ((w.filter (fun e => e.success == false)).length : ℚ) / n
    let actions := w.map Evt.action
    let events := (w.map Evt.rare_event).filter (fun e => !(e == RareEvt.none))
    let distinctA := actionsList.filter (fun a => actions.contains a)
    let distinctE := ([.discovery, .near_failure, .success_major, .stress_spike,
      .opportunity_exceptionnelle] : List RareEvt).filter (fun e => events.contains e)
    { fail_rate := round3 fail_rate
      action_diversity := distinctA.length
      avg_stress := round3 ((w.map Evt.stress).sum / n)
      avg_energy := round3 ((w.map Evt.energy).sum / n)
      top_actions := (sortDescBy (fun pr => ((pr.2 : ℕ) : ℚ))
        (distinctA.map (fun a => (a, actions.count a)))).take 3
      top_events := (sortDescBy (fun pr => ((pr.2 : ℕ) : ℚ))
        (distinctE.map (fun e => (e, events.count e)))).take 3 }

/-- `_day_summary_if_needed`. -/
def day_summary_if_needed (st : Engine) : Engine :=
  let day := (st.sim_minutes / 1440).floor.toNat
  if day ≤ st.last_day_index then st
  else
    let dash := st.compute_dashboard
    let summary : DaySummary :=
      ⟨day, st.intention_active.map IntentionActive.nom,
       fun a => (st.competences a).niveau, dash⟩
    { st with
      last_day_index := day
      journal_evolutif := st.journal_evolutif ++ [summary]
      dashboard_history := st.dashboard_history ++ [summary] }

/-- `_human_log` (`cap = none` stands for the fallback label
"ajustement"). -/
def human_log (action : Action) (success : Bool) (rare : RareEvt) (st : Engine) : HumanLog :=
  ⟨st.intention_active.map IntentionActive.nom, action, success, rare⟩

/-- `_state_snapshot`. -/
def state_snapshot (st : Engine) : StateSnap :=
  ⟨st.tick, st.sim_day_phase, st.etat, st.etat_monde, st.intention_active, st.meta⟩

end Engine

/-- The "memoire" sub-document of a persisted snapshot.  Nested documents
are modelled well-typed; the top-level keys of the snapshot dict, which
`load_snapshot` accesses directly (raising `KeyError` when missing), are
each an `Option` in `SnapJson`. -/
structure MemoireDoc where
  court_terme : List Evt
  long_terme : Action → MemoireAction
  souvenirs_marquants : List SouvenirMarquant
  routines : Action → Phase → ℕ

/-- The "router" sub-document (read back with `.get` and per-key
defaults, hence every key is optional). -/
structure RouterDoc where
  auto_mode : Option Bool := Option.none
  forced_model_key : Option (Option String) := Option.none
  current_mode : Option Mode := Option.none
  keep_warm : Option Bool := Option.none

/-- A parsed snapshot document (the JSON object produced by
`snapshot_dict`, with each top-level key possibly absent). -/
structure SnapJson where
  version : Option ℤ := Option.none
  tick : Option ℕ := Option.none
  sim_minutes : Option ℚ := Option.none
  etat : Option EtatInterne := Option.none
  monde : Option EtatMonde := Option.none
  meta : Option Meta := Option.none
  competences : Option (Action → Competence) := Option.none
  memoire : Option MemoireDoc := Option.none
  intention_active : Option (Option IntentionActive) := Option.none
  idees_backlog : Option (List Idee) := Option.none
  router : Option RouterDoc := Option.none

/-- Content of a snapshot file: `garbage` stands for any text on which
`json.loads` (or the top-level `.get` of a non-object document) raises;
`parsed` is a successfully decoded JSON object. -/
inductive SnapContent
  | garbage
  | parsed (j : SnapJson)

/-- The two file slots touched by `save_snapshot(path)` /
`load_snapshot(path)`: the primary file at `path` and the `path + ".bak"`
file.  `Option.none` means the file does not exist. -/
structure FS where
  primary : Option SnapContent := Option.none
  backup : Option SnapContent := Option.none

/-- `snapshot_dict`. -/
def Engine.snapshot_dict (st : Engine) : SnapJson where
  version := some SNAPSHOT_VERSION
  tick := some st.tick
  sim_minutes := some st.sim_minutes
  etat := some st.etat
  monde := some st.etat_monde
  meta := some st.meta
  competences := some st.competences
  memoire := some ⟨st.memoire.court_terme, st.memoire.long_terme,
    st.memoire.souvenirs_marquants, st.memoire.routines⟩
  intention_active := some st.intention_active
  idees_backlog := some st.idees_backlog
  router := some ⟨some st.router.auto_mode, some st.router.forced_model_key,
    some st.router.current_mode, some st.router.keep_warm⟩

/-- First write of `save_snapshot`: if the primary file exists, its current
content is copied into the `.bak` file. -/
def saveStep1 (fs : FS) : FS :=
  match fs.primary with
  | some c => { fs with backup := some c }
  | Option.none => fs

/-- Second write of `save_snapshot`: the new payload goes to the primary
file. -/
def saveStep2 (payload : SnapContent) (fs : FS) : FS :=
  { fs with primary := some payload }

/-- Third write of `save_snapshot`: the new payload also goes to the
`.bak` file. -/
def saveStep3 (payload : SnapContent) (fs : FS) : FS :=
  { fs with backup := some payload }

/-- `save_snapshot`. -/
def Engine.save_snapshot (st : Engine) (fs : FS) : Engine × FS :=
  let prA := st.permissions.autorise .snapshot st.tick
  let st' := { st with permissions := prA.2 }
  if !prA.1 then (st', fs)
  else
    let payload := SnapContent.parsed st'.snapshot_dict
    (st', saveStep3 payload (saveStep2 payload (saveStep1 fs)))

/-- The assignment block of `load_snapshot` (everything after the version
checks).  A missing required top-level key raises `KeyError`
(`Except.error`); the sequential `let` bindings mirror the original
field-by-field mutation order. -/
def applySnapshot (j : SnapJson) (st : Engine) : Except Unit (Bool × Engine) :=
  match j.tick with
  | Option.none => .error ()
  | some t =>
  let st := { st with tick := t }
  match j.sim_minutes with
  | Option.none => .error ()
  | some sm =>
  let st := { st with sim_minutes := sm, sim_day_minutes := fmod sm 1440.0 }
  let st := { st with sim_day_phase := computeSimDayPhase st.sim_day_minutes }
  match j.etat with
  | Option.none => .error ()
  | some e =>
  let st := { st with etat := e }
  match j.monde with
  | Option.none => .error ()
  | some w =>
  let st := { st with etat_monde := w }
  match j.meta with
  | Option.none => .error ()
  | some m =>
  let st := { st with meta := m }
  match j.competences with
  | Option.none => .error ()
  | some comp =>
  let st := { st with competences := comp }
  match j.memoire with
  | Option.none => .error ()
  | some md =>
  let st := { st with memoire :=
    ⟨md.court_terme, md.long_terme, md.souvenirs_marquants, md.routines⟩ }
  let st := { st with idees_backlog := j.idees_backlog.getD [] }
  let st := { st with intention_active := j.intention_active.getD Option.none }
  let rd := j.router.getD {}
  let st := { st with router :=
    ⟨rd.auto_mode.getD true, rd.forced_model_key.getD Option.none,
     rd.current_mode.getD .realtime, rd.keep_warm.getD true⟩ }
  .ok (true, st)

/-- The backup branch of `load_snapshot`: a missing, unreadable or
version-mismatched backup returns `False`; a valid backup is applied. -/
def loadFromBackup (fs : FS) (st : Engine) : Except Unit (Bool × Engine) :=
  match fs.backup with
  | Option.none => .ok (false, st)
  | some .garbage => .ok (false, st)
  | some (.parsed j) =>
      if j.version.getD (-1) ≠ SNAPSHOT_VERSION then .ok (false, st)
      else applySnapshot j st

/-- `load_snapshot`. -/
def Engine.load_snapshot (fs : FS) (st : Engine) : Except Unit (Bool × Engine) :=
  match fs.primary with
  | some (SnapContent.parsed j) =>
      if j.version.getD (-1) = SNAPSHOT_VERSION then applySnapshot j st
      else loadFromBackup fs st
  | _ => loadFromBackup fs st

/-- The tail of `boucle_de_vie` after `_executer_action` (factored out of
the method only to keep definitions small; the statements are those of the
source, in source order). -/
def Engine.boucle_post_exec (action : Action) (result : ExecResult) (before : StateSnap)
    (st : Engine) (fs : FS) : BoucleMsg × Engine × FS :=
  let st := { st with last_action_tick := Function.update st.last_action_tick action st.tick }
  let st := { st with action_history := st.action_history ++ [action] }
  let rts := Function.update (st.memoire.routines action) st.sim_day_phase
    (st.memoire.routines action st.sim_day_phase + 1)
  let st := { st with memoire :=
    { st.memoire with routines := Function.update st.memoire.routines action rts } }
  let st := st.update_competence action result.success
  let st := st.update_memoire_long_terme action result
  let evt : Evt := ⟨st.tick, action, result.success, result.observed_reward,
    result.observed_cost, result.rare_event, st.etat.stress, st.etat.energy⟩
  let st := { st with memoire := st.memoire.enregistrer_evenement evt }
  let st := st.meta_learning
  let st := st.consolidation_periodique
  let st := st.day_summary_if_needed
  let st :=
    if result.rare_event == RareEvt.near_failure ||
       result.rare_event == RareEvt.stress_spike ||
       result.rare_event == RareEvt.success_major then
      { st with intention_active := Option.none }
    else st
  let p :=
    if st.tick % AUTOSAVE_EVERY_TICKS = 0 then st.save_snapshot fs else (st, fs)
  let st := p.1
  let fs := p.2
  let human := st.human_log action result.success result.rare_event
  let st := { st with journal_humain := st.journal_humain ++ [human] }
  let st := { st with journal_debug :=
    st.journal_debug ++ [.cycle st.tick before st.state_snapshot result] }
  (.log human, st, fs)

/-- `boucle_de_vie`.  `Except.error` models the `RuntimeError` raised by
`ContrainteExecutionLocale.verifier`. -/
def Engine.boucle_de_vie (env : Env) (st : Engine) (fs : FS) :
    Except Unit (BoucleMsg × Engine × FS) :=
  if st.is_paused then .ok (.paused, st, fs)
  else if !(st.contrainte_locale.hors_ligne_strict &&
            !st.contrainte_locale.api_externe_autorisee) then .error ()
  else
    let prA := st.permissions.autorise .simulate st.tick
    let st := { st with permissions := prA.2 }
    if !prA.1 then .ok (.refused, st, fs)
    else
      let σ := env.rand
      let st := st.tick_time_update env
      let st := st.evolve_world σ
      let st := st.passive_recovery
      let before := st.state_snapshot
      let prC := Engine.choisir_action σ st
      let action := prC.1
      let st := prC.2
      let prE := Engine.executer_action σ action st
      let result := prE.1
      let st := prE.2
      .ok (st.boucle_post_exec action result before fs)

/-- A freshly constructed engine (`CerveauKaguya(seed)` with no autoload;
`Memoire.init_actions` produces exactly the default per-action records and
zeroed routine counters). -/
def Engine.init (env : Env) : Engine where
  rngIdx := 0
  last_tick_monotonic := env.mono 0
  contrainte_locale := {}
  permissions := Permissions.default
  etat := {}
  etat_monde := {}
  tick := 0
  tick_seconds := 0.0
  sim_minutes := 0.0
  sim_day_minutes := 0.0
  sim_day_phase := .night
  pc_day_phase := if env.pcNight 0 then .night else .day
  last_day_index := 0
  is_paused := false
  intention_active := Option.none
  idees_backlog := []
  memoire := {}
  journal_humain := []
  journal_debug := []
  journal_evolutif := []
  dashboard_history := []
  last_action_tick := fun _ => 0
  competences := fun _ => {}
  action_history := []
  meta := {}
  cooldowns := fun _ => 0
  router := {}

/-- `n` successive calls of `boucle_de_vie` from a state/filesystem pair.
A raising call (impossible from a fresh engine, whose offline flags are
never mutated) leaves the pair unchanged. -/
def runTicks (env : Env) : ℕ → Engine × FS → Engine × FS
  | 0, p => p
  | n + 1, p =>
      let q := runTicks env n p
      match Engine.boucle_de_vie env q.1 q.2 with
      | .ok (_, st, fs) => (st, fs)
      | .error _ => q


/-! ### General lemmas -/

theorem firstArgmax_mem {α : Type} (f : α → ℚ) (a : α) (l : List α) :
    firstArgmax f a l ∈ a :: l := by
  induction l generalizing a with
  | nil => simp [firstArgmax]
  | cons b t ih =>
      unfold firstArgmax
      split
      · have := ih b
        simp only [List.mem_cons] at this ⊢
        tauto
      · have := ih a
        simp only [List.mem_cons] at this ⊢
        tauto

theorem lastN_ne_nil {α : Type} (n : ℕ) (l : List α) (hn : 0 < n) (hl : l ≠ []) :
    lastN n l ≠ [] := by
  have h1 : 0 < l.length := List.length_pos.2 hl
  have : (lastN n l).length = l.length - (l.length - n) := by
    simp [lastN]
  intro h
  rw [h] at this
  simp only [List.length_nil] at this
  omega

theorem clamp01_nonneg (x : ℚ) : 0 ≤ clamp01 x := le_max_left 0 _

theorem clamp01_le_one (x : ℚ) : clamp01 x ≤ 1 :=
  max_le (by norm_num) (min_le_left 1 x)

/-- The claim "each scalar lies within `[0,1]`" for the internal state. -/
def EtatInterne.Bounded (e : EtatInterne) : Prop :=
  (0 ≤ e.energy ∧ e.energy ≤ 1) ∧ (0 ≤ e.clarity ∧ e.clarity ≤ 1) ∧
  (0 ≤ e.stability ∧ e.stability ≤ 1) ∧ (0 ≤ e.curiosity ∧ e.curiosity ≤ 1) ∧
  (0 ≤ e.risk_tolerance ∧ e.risk_tolerance ≤ 1) ∧ (0 ≤ e.fatigue ∧ e.fatigue ≤ 1) ∧
  (0 ≤ e.stress ∧ e.stress ≤ 1)

/-- The claim "each scalar lies within `[0,1]`" for the world state. -/
def EtatMonde.Bounded (w : EtatMonde) : Prop :=
  (0 ≤ w.bruit_instabilite ∧ w.bruit_instabilite ≤ 1) ∧
  (0 ≤ w.opportunites ∧ w.opportunites ≤ 1) ∧
  (0 ≤ w.danger ∧ w.danger ≤ 1) ∧
  (0 ≤ w.nouveaute ∧ w.nouveaute ≤ 1) ∧
  (0 ≤ w.stabilite_globale ∧ w.stabilite_globale ≤ 1)

theorem EtatInterne.borner_bounded_etat (e : EtatInterne) : e.borner.Bounded :=
  ⟨⟨clamp01_nonneg _, clamp01_le_one _⟩, ⟨clamp01_nonneg _, clamp01_le_one _⟩,
   ⟨clamp01_nonneg _, clamp01_le_one _⟩, ⟨clamp01_nonneg _, clamp01_le_one _⟩,
   ⟨clamp01_nonneg _, clamp01_le_one _⟩, ⟨clamp01_nonneg _, clamp01_le_one _⟩,
   ⟨clamp01_nonneg _, clamp01_le_one _⟩⟩

theorem EtatMonde.borner_bounded_monde (w : EtatMonde) : w.borner.Bounded :=
  ⟨⟨clamp01_nonneg _, clamp01_le_one _⟩, ⟨clamp01_nonneg _, clamp01_le_one _⟩,
   ⟨clamp01_nonneg _, clamp01_le_one _⟩, ⟨clamp01_nonneg _, clamp01_le_one _⟩,
   ⟨clamp01_nonneg _, clamp01_le_one _⟩⟩

/-- Both state vectors within bounds. -/
def Engine.BoundedState (st : Engine) : Prop :=
  st.etat.Bounded ∧ st.etat_monde.Bounded

/-! ### Frame lemmas (which fields each engine method leaves unchanged) -/

theorem choose_intention_frame (σ : ℕ → ℚ) (actifs : List Objectif) (st : Engine) :
    (Engine.choose_intention σ actifs st).etat = st.etat ∧
    (Engine.choose_intention σ actifs st).etat_monde = st.etat_monde ∧
    (Engine.choose_intention σ actifs st).journal_debug = st.journal_debug ∧
    (Engine.choose_intention σ actifs st).tick = st.tick ∧
    (Engine.choose_intention σ actifs st).memoire = st.memoire ∧
    (Engine.choose_intention σ actifs st).cooldowns = st.cooldowns := by
  refine ⟨?_, ?_, ?_, ?_, ?_, ?_⟩ <;>
    (unfold Engine.choose_intention
     repeat' (first | rfl | (try dsimp only); split)) <;> rfl

theorem score_action_frame (σ : ℕ → ℚ) (a : Action) (actifs : List Objectif) (st : Engine) :
    (Engine.score_action σ a actifs st).2.etat = st.etat ∧
    (Engine.score_action σ a actifs st).2.etat_monde = st.etat_monde ∧
    (Engine.score_action σ a actifs st).2.journal_debug = st.journal_debug ∧
    (Engine.score_action σ a actifs st).2.tick = st.tick ∧
    (Engine.score_action σ a actifs st).2.memoire = st.memoire ∧
    (Engine.score_action σ a actifs st).2.intention_active = st.intention_active := by
  refine ⟨?_, ?_, ?_, ?_, ?_, ?_⟩ <;>
    (unfold Engine.score_action Engine.anti_loop_penalty
     repeat' (first | rfl | (try dsimp only); split)) <;> rfl

theorem scoreList_frame (σ : ℕ → ℚ) (actifs : List Objectif) (cands : List Action)
    (st : Engine) :
    (Engine.scoreList σ actifs cands st).2.etat = st.etat ∧
    (Engine.scoreList σ actifs cands st).2.etat_monde = st.etat_monde ∧
    (Engine.scoreList σ actifs cands st).2.journal_debug = st.journal_debug ∧
    (Engine.scoreList σ actifs cands st).2.tick = st.tick := by
  suffices h : ∀ (l : List Action) (acc : List (Action × ℚ)) (s : Engine),
      ((l.foldl (fun acc a =>
        let pr := Engine.score_action σ a actifs acc.2
        (acc.1 ++ [(a, pr.1)], pr.2)) (acc, s)).2.etat = s.etat ∧
       (l.foldl (fun acc a =>
        let pr := Engine.score_action σ a actifs acc.2
        (acc.1 ++ [(a, pr.1)], pr.2)) (acc, s)).2.etat_monde = s.etat_monde ∧
       (l.foldl (fun acc a =>
        let pr := Engine.score_action σ a actifs acc.2
        (acc.1 ++ [(a, pr.1)], pr.2)) (acc, s)).2.journal_debug = s.journal_debug ∧
       (l.foldl (fun acc a =>
        let pr := Engine.score_action σ a actifs acc.2
        (acc.1 ++ [(a, pr.1)], pr.2)) (acc, s)).2.tick = s.tick) by
    exact h cands [] st
  intro l
  induction l with
  | nil => intro acc s; exact ⟨rfl, rfl, rfl, rfl⟩
  | cons a t ih =>
      intro acc s
      have hs := score_action_frame σ a actifs s
      have ht := ih (acc ++ [(a, (Engine.score_action σ a actifs s).1)])
        (Engine.score_action σ a actifs s).2
      simp only [List.foldl_cons]
      exact ⟨ht.1.trans hs.1, ht.2.1.trans hs.2.1,
        ht.2.2.1.trans hs.2.2.1, ht.2.2.2.trans hs.2.2.2.1⟩

theorem scoreList_fst (σ : ℕ → ℚ) (actifs : List Objectif) (cands : List Action)
    (st : Engine) :
    (Engine.scoreList σ actifs cands st).1.map Prod.fst = cands := by
  suffices h : ∀ (l : List Action) (acc : List (Action × ℚ)) (s : Engine),
      ((l.foldl (fun acc a =>
        let pr := Engine.score_action σ a actifs acc.2
        (acc.1 ++ [(a, pr.1)], pr.2)) (acc, s)).1.map Prod.fst = acc.map Prod.fst ++ l) by
    simpa using h cands [] st
  intro l
  induction l with
  | nil => intro acc s; simp
  | cons a t ih =>
      intro acc s
      simp only [List.foldl_cons]
      rw [ih]
      simp

theorem update_idees_frame (r : RareEvt) (a : Action) (st : Engine) :
    (Engine.update_idees r a st).etat = st.etat ∧
    (Engine.update_idees r a st).etat_monde = st.etat_monde ∧
    (Engine.update_idees r a st).tick = st.tick ∧
    (Engine.update_idees r a st).memoire = st.memoire ∧
    (Engine.update_idees r a st).action_history = st.action_history := by
  refine ⟨?_, ?_, ?_, ?_, ?_⟩ <;>
    (unfold Engine.update_idees
     repeat' ((try dsimp only); split)) <;> rfl

theorem update_competence_frame (a : Action) (su : Bool) (st : Engine) :
    (Engine.update_competence a su st).etat = st.etat ∧
    (Engine.update_competence a su st).etat_monde = st.etat_monde ∧
    (Engine.update_competence a su st).tick = st.tick ∧
    (Engine.update_competence a su st).memoire = st.memoire ∧
    (Engine.update_competence a su st).action_history = st.action_history := by
  refine ⟨?_, ?_, ?_, ?_, ?_⟩ <;>
    (unfold Engine.update_competence
     repeat' (first | rfl | (try dsimp only); split)) <;> rfl

theorem update_memoire_frame (a : Action) (r : ExecResult) (st : Engine) :
    (Engine.update_memoire_long_terme a r st).etat = st.etat ∧
    (Engine.update_memoire_long_terme a r st).etat_monde = st.etat_monde ∧
    (Engine.update_memoire_long_terme a r st).tick = st.tick ∧
    (Engine.update_memoire_long_terme a r st).memoire.souvenirs_marquants =
      st.memoire.souvenirs_marquants ∧
    (Engine.update_memoire_long_terme a r st).action_history = st.action_history := by
  refine ⟨?_, ?_, ?_, ?_, ?_⟩ <;>
    (unfold Engine.update_memoire_long_terme
     repeat' (first | rfl | (try dsimp only); split)) <;> rfl

theorem meta_learning_frame (st : Engine) :
    (Engine.meta_learning st).tick = st.tick ∧
    (Engine.meta_learning st).memoire = st.memoire ∧
    (Engine.meta_learning st).action_history = st.action_history := by
  refine ⟨?_, ?_, ?_⟩ <;>
    (unfold Engine.meta_learning
     repeat' (first | rfl | (try dsimp only); split)) <;> rfl

theorem day_summary_frame (st : Engine) :
    (Engine.day_summary_if_needed st).etat = st.etat ∧
    (Engine.day_summary_if_needed st).etat_monde = st.etat_monde ∧
    (Engine.day_summary_if_needed st).tick = st.tick ∧
    (Engine.day_summary_if_needed st).memoire = st.memoire ∧
    (Engine.day_summary_if_needed st).action_history = st.action_history := by
  refine ⟨?_, ?_, ?_, ?_, ?_⟩ <;>
    (unfold Engine.day_summary_if_needed
     repeat' (first | rfl | (try dsimp only); split)) <;> rfl

theorem save_snapshot_frame (st : Engine) (fs : FS) :
    (st.save_snapshot fs).1.etat = st.etat ∧
    (st.save_snapshot fs).1.etat_monde = st.etat_monde ∧
    (st.save_snapshot fs).1.tick = st.tick ∧
    (st.save_snapshot fs).1.memoire = st.memoire ∧
    (st.save_snapshot fs).1.action_history = st.action_history := by
  refine ⟨?_, ?_, ?_, ?_, ?_⟩ <;>
    (unfold Engine.save_snapshot
     repeat' (first | rfl | (try dsimp only); split)) <;> rfl

theorem consolidation_frame (st : Engine) :
    (Engine.consolidation_periodique st).tick = st.tick ∧
    (Engine.consolidation_periodique st).action_history = st.action_history := by
  refine ⟨?_, ?_⟩ <;>
    (unfold Engine.consolidation_periodique
     repeat' (first | rfl | (try dsimp only); split)) <;> rfl


/-! ### Boundedness of the per-tick state transformations (claim C3) -/

theorem evolve_world_bounds (σ : ℕ → ℚ) (st : Engine) :
    (st.evolve_world σ).etat = st.etat ∧ (st.evolve_world σ).etat_monde.Bounded :=
  ⟨rfl, EtatMonde.borner_bounded_monde _⟩

theorem passive_recovery_bounds (st : Engine) :
    (st.passive_recovery).etat.Bounded ∧ (st.passive_recovery).etat_monde = st.etat_monde :=
  ⟨EtatInterne.borner_bounded_etat _, rfl⟩

theorem tick_time_update_frame (env : Env) (st : Engine) :
    (st.tick_time_update env).etat = st.etat ∧
    (st.tick_time_update env).etat_monde = st.etat_monde :=
  ⟨rfl, rfl⟩

theorem apply_world_bounds (a : Action) (su : Bool) (st : Engine) :
    (Engine.apply_action_world_effect a su st).etat = st.etat ∧
    (Engine.apply_action_world_effect a su st).etat_monde.Bounded :=
  ⟨rfl, EtatMonde.borner_bounded_monde _⟩

theorem roll_rare_bounds (σ : ℕ → ℚ) (a : Action) (st : Engine)
    (h : st.BoundedState) : (Engine.roll_rare_event σ a st).2.BoundedState := by
  unfold Engine.roll_rare_event
  dsimp only
  split
  · exact h
  · exact ⟨EtatInterne.borner_bounded_etat _, EtatMonde.borner_bounded_monde _⟩

theorem exec_apply_etat_bounds (σ : ℕ → ℚ) (a : Action) (st : Engine) :
    (Engine.exec_apply_etat σ a st).etat.Bounded ∧
    (Engine.exec_apply_etat σ a st).etat_monde = st.etat_monde :=
  ⟨EtatInterne.borner_bounded_etat _, rfl⟩

set_option maxHeartbeats 800000 in
theorem executer_bounds (σ : ℕ → ℚ) (a : Action) (st : Engine) :
    (Engine.executer_action σ a st).2.BoundedState := by
  unfold Engine.executer_action
  dsimp only
  have hb : (Engine.apply_action_world_effect a (Engine.exec_success σ a st)
      (Engine.exec_apply_etat σ a st)).BoundedState := by
    constructor
    · rw [(apply_world_bounds _ _ _).1]
      exact (exec_apply_etat_bounds σ a st).1
    · exact (apply_world_bounds _ _ _).2
  constructor
  · rw [(update_idees_frame _ _ _).1]
    exact (roll_rare_bounds _ _ _ hb).1
  · rw [(update_idees_frame _ _ _).2.1]
    exact (roll_rare_bounds _ _ _ hb).2

theorem meta_learning_bounds (st : Engine) :
    (Engine.meta_learning st).etat_monde = st.etat_monde ∧
    (st.etat.Bounded → (Engine.meta_learning st).etat.Bounded) := by
  constructor
  · unfold Engine.meta_learning
    (try dsimp only)
    split
    · rfl
    · rfl
  · intro h
    unfold Engine.meta_learning
    (try dsimp only)
    split
    · exact h
    · exact EtatInterne.borner_bounded_etat _

theorem consolidation_bounds (st : Engine) :
    (Engine.consolidation_periodique st).etat_monde = st.etat_monde ∧
    (st.etat.Bounded → (Engine.consolidation_periodique st).etat.Bounded) := by
  constructor
  · unfold Engine.consolidation_periodique
    (try dsimp only)
    split
    · rfl
    · (try dsimp only)
      split
      · rfl
      · rfl
  · intro h
    unfold Engine.consolidation_periodique
    (try dsimp only)
    split
    · exact h
    · (try dsimp only)
      split
      · exact h
      · exact EtatInterne.borner_bounded_etat _

set_option maxHeartbeats 1600000 in
theorem boucle_post_exec_bounds (action : Action) (result : ExecResult)
    (before : StateSnap) (st : Engine) (fs : FS) (h : st.BoundedState) :
    ((st.boucle_post_exec action result before fs).2.1).BoundedState := by
  unfold Engine.boucle_post_exec
  dsimp only
  constructor
  · -- internal-state component
    repeat' split
    all_goals
      ((try dsimp only)
       (try rw [(save_snapshot_frame _ _).1])
       (try dsimp only)
       rw [(day_summary_frame _).1]
       refine (consolidation_bounds _).2 ((meta_learning_bounds _).2 ?_)
       rw [(update_memoire_frame _ _ _).1, (update_competence_frame _ _ _).1]
       exact h.1)
  · -- world-state component
    repeat' split
    all_goals
      ((try dsimp only)
       (try rw [(save_snapshot_frame _ _).2.1])
       (try dsimp only)
       rw [(day_summary_frame _).2.1, (consolidation_bounds _).1,
         (meta_learning_bounds _).1, (update_memoire_frame _ _ _).2.1,
         (update_competence_frame _ _ _).2.1]
       exact h.2)

theorem boucle_ok_bounds (env : Env) (st : Engine) (fs : FS) (h : st.BoundedState)
    (msg : BoucleMsg) (st' : Engine) (fs' : FS)
    (heq : Engine.boucle_de_vie env st fs = .ok (msg, st', fs')) :
    st'.BoundedState := by
  unfold Engine.boucle_de_vie at heq
  split at heq
  · cases heq; exact h
  · split at heq
    · exact Except.noConfusion heq
    · dsimp only at heq
      split at heq
      · cases heq; exact h
      · cases heq
        exact boucle_post_exec_bounds _ _ _ _ _ (executer_bounds _ _ _)

theorem init_bounded (env : Env) : (Engine.init env).BoundedState := by
  refine ⟨⟨⟨?_, ?_⟩, ⟨?_, ?_⟩, ⟨?_, ?_⟩, ⟨?_, ?_⟩, ⟨?_, ?_⟩, ⟨?_, ?_⟩, ⟨?_, ?_⟩⟩,
    ⟨⟨?_, ?_⟩, ⟨?_, ?_⟩, ⟨?_, ?_⟩, ⟨?_, ?_⟩, ⟨?_, ?_⟩⟩⟩ <;> norm_num [Engine.init]

theorem runTicks_bounds (env : Env) (N : ℕ) (p : Engine × FS) (h : p.1.BoundedState) :
    ((runTicks env N p).1).BoundedState := by
  induction N with
  | zero => exact h
  | succ n ih =>
      unfold runTicks
      dsimp only
      rcases hb : Engine.boucle_de_vie env (runTicks env n p).1 (runTicks env n p).2
        with u | trip
      · exact ih
      · obtain ⟨msg, st', fs'⟩ := trip
        exact boucle_ok_bounds _ _ _ ih _ _ _ hb


/-! ### Model inputs for the concrete runs -/

/-- Environment whose random stream is constantly `0` (every uniform draw
takes its lower bound, every Bernoulli draw fails, every rare-event roll
triggers with event "discovery" and severity `0.45`). -/
def env0 : Env := ⟨fun _ => 0, fun _ => false, fun _ => 0⟩

/-- Environment whose random stream is constantly `1/2`. -/
def envHalf : Env := ⟨fun _ => 1/2, fun _ => false, fun _ => 0⟩

/-- The engine after `n` life-cycle ticks from a fresh engine and an empty
snapshot directory. -/
def stateAfter (env : Env) (n : ℕ) : Engine :=
  (runTicks env n (Engine.init env, {})).1

/-- C3: for every random stream (hence every seed) and every number of
ticks `N`, after each of `N` calls to `boucle_de_vie` from a freshly
constructed engine, all 7 `EtatInterne` scalars and all 5 `EtatMonde`
scalars lie within `[0, 1]`. -/
theorem C3_state_scalars_bounded (env : Env) (N : ℕ) :
    (stateAfter env N).etat.Bounded ∧ (stateAfter env N).etat_monde.Bounded :=
  runTicks_bounds env N _ (init_bounded env)

set_option maxRecDepth 100000 in
/-- C4: the code appends the `SouvenirMarquant` capturing
`asdict(self.etat)` BEFORE `self.etat.borner()` runs, so a rare event can
store an out-of-range snapshot.  Concretely, with the all-zero random
stream the fifth tick stores a snapshot whose `curiosity` is
`5053/5000 > 1`. -/
theorem C4_unclamped_snapshot_stored :
    ((stateAfter env0 5).memoire.souvenirs_marquants.any
      (fun s => decide (1 < s.state.curiosity))) = true := by
  with_unfolding_all rfl

theorem choisir_frame (σ : ℕ → ℚ) (st : Engine) :
    (Engine.choisir_action σ st).2.etat = st.etat ∧
    (Engine.choisir_action σ st).2.etat_monde = st.etat_monde ∧
    (Engine.choisir_action σ st).2.tick = st.tick ∧
    (Engine.choisir_action σ st).2.journal_debug.length = st.journal_debug.length + 1 := by
  unfold Engine.choisir_action
  dsimp only
  have h1 := choose_intention_frame σ (Engine.active_objectifs st) st
  have h2 := scoreList_frame σ (Engine.active_objectifs st)
    (Engine.gated_actions (Engine.choose_intention σ (Engine.active_objectifs st) st))
    (Engine.choose_intention σ (Engine.active_objectifs st) st)
  refine ⟨?_, ?_, ?_, ?_⟩
  · exact h2.1.trans h1.1
  · exact h2.2.1.trans h1.2.1
  · exact h2.2.2.2.trans h1.2.2.2.1
  · simp [List.length_append, h2.2.2.1, h1.2.2.1]

set_option maxRecDepth 400000 in
/-- C10: `choisir_action` (the CLI "propose" query) is not read-only.
From the fresh engine it installs an intention where none was active; at
the reachable state after 20 ticks of the constant-`1/2` stream it sets a
cooldown on `reflect` (12 repeats in the last 30 actions) strictly beyond
the current tick; and every call appends one decision record to
`journal_debug`. -/
theorem C10_choisir_action_mutates :
    ((Engine.init envHalf).intention_active = Option.none ∧
      ((Engine.choisir_action envHalf.rand (Engine.init envHalf)).2.intention_active).isSome
        = true) ∧
    ((stateAfter envHalf 20).cooldowns Action.reflect ≤ (stateAfter envHalf 20).tick ∧
      (Engine.choisir_action envHalf.rand (stateAfter envHalf 20)).2.cooldowns Action.reflect >
        (Engine.choisir_action envHalf.rand (stateAfter envHalf 20)).2.tick) ∧
    (∀ (σ : ℕ → ℚ) (st : Engine),
      (Engine.choisir_action σ st).2.journal_debug.length = st.journal_debug.length + 1) := by
  refine ⟨⟨rfl, ?_⟩, ⟨?_, ?_⟩, fun σ st => (choisir_frame σ st).2.2.2⟩
  · with_unfolding_all rfl
  · exact of_decide_eq_true (by with_unfolding_all rfl)
  · exact of_decide_eq_true (by with_unfolding_all rfl)

/-- C6 counterexample: with the diversity meta-factor at its ceiling
`1.20` and 50 ticks since last use, the recency/diversity bonus of
`_score_action` is `0.24`, exceeding the claimed `0.20` cap. -/
theorem C6_counterexample :
    bonusTerm 50 0 1.2 = 6/25 ∧ (0.20 : ℚ) < 6/25 := by
  constructor
  · with_unfolding_all rfl
  · norm_num

/-- C6 (amended): the recency/diversity bonus is `0.2 · min(1, Δ/50) ·
diversity`; it is bounded by `0.20 ·` the diversity ceiling `1.20 = 0.24`
(not by `0.20`), grows linearly with the ticks-since-last-use `Δ` below
the 50-tick cap, and saturates at `0.2 · diversity` from `Δ = 50` on. -/
theorem C6_amended (tick last : ℕ) (d : ℚ) (h0 : 0 ≤ d) (h1 : d ≤ 1.2)
    (h2 : last ≤ tick) :
    bonusTerm tick last d ≤ 0.24 ∧
    (50 ≤ tick - last → bonusTerm tick last d = 0.2 * d) ∧
    (tick - last ≤ 50 →
      bonusTerm tick last d = 0.2 * (((tick - last : ℕ) : ℚ) / 50) * d) := by
  have hc : ((tick : ℚ) - (last : ℚ)) = ((tick - last : ℕ) : ℚ) := by
    push_cast [h2]
    ring
  unfold bonusTerm
  rw [hc]
  refine ⟨?_, ?_, ?_⟩
  · have hm1 : min 1 (((tick - last : ℕ) : ℚ) / 50) ≤ 1 := min_le_left _ _
    have hm0 : 0 ≤ min 1 (((tick - last : ℕ) : ℚ) / 50) := by
      apply le_min
      · norm_num
      · positivity
    nlinarith
  · intro h
    have : (1 : ℚ) ≤ ((tick - last : ℕ) : ℚ) / 50 := by
      rw [le_div_iff₀ (by norm_num : (0:ℚ) < 50)]
      have : (50 : ℚ) ≤ ((tick - last : ℕ) : ℚ) := by exact_mod_cast h
      linarith
    rw [min_eq_left this]
    ring
  · intro h
    have : ((tick - last : ℕ) : ℚ) / 50 ≤ 1 := by
      rw [div_le_one (by norm_num : (0:ℚ) < 50)]
      exact_mod_cast h
    rw [min_eq_right this]

/-- Witness for C6 (amended) at `Δ = 50`, diversity `1.2`. -/
theorem C6_amended_witness :
    bonusTerm 50 0 1.2 ≤ 0.24 ∧ bonusTerm 50 0 1.2 = 0.2 * 1.2 :=
  ⟨(C6_amended 50 0 1.2 (by norm_num) (by norm_num) (by norm_num)).1,
   (C6_amended 50 0 1.2 (by norm_num) (by norm_num) (by norm_num)).2.1 (by norm_num)⟩


/-! ### C1 / C2: snapshot save and load -/

/-- `snapshot_dict` ignores the permission log, so the payload written by
`save_snapshot` equals the snapshot of the pre-call state. -/
theorem snapshot_dict_permissions (st : Engine) (p : Permissions) :
    Engine.snapshot_dict { st with permissions := p } = st.snapshot_dict := rfl

/-- A filesystem whose primary snapshot file exists with unparseable
content and whose `.bak` file does not exist. -/
def fsGarbagePrimary : FS := { primary := some SnapContent.garbage, backup := Option.none }

/-- C1 counterexample: saving over a primary file with content `C`
(garbage here) leaves the `.bak` file holding the NEW document, not `C`:
line 738 of `cerveau.py` overwrites the backup with the fresh payload
right after line 736 copied `C` into it. -/
theorem C1_counterexample :
    fsGarbagePrimary.primary = some SnapContent.garbage ∧
    ((Engine.init envHalf).save_snapshot fsGarbagePrimary).2.backup ≠
      some SnapContent.garbage := by
  refine ⟨rfl, ?_⟩
  intro hcontra
  have hval : ((Engine.init envHalf).save_snapshot fsGarbagePrimary).2.backup
      = some (SnapContent.parsed (Engine.init envHalf).snapshot_dict) := by
    with_unfolding_all rfl
  rw [hval] at hcontra
  exact SnapContent.noConfusion (Option.some.inj hcontra)

/-- C1 (amended): when the primary file exists with content `C` and the
snapshot capacity is granted, `save_snapshot` first copies `C` into the
`.bak` file (`saveStep1`), then writes the new document to the primary
(`saveStep2`), then overwrites `.bak` with the same new document
(`saveStep3`); after the call both files hold the new document, so `.bak`
is a duplicate of the new primary, not the previous content. -/
theorem C1_amended (st : Engine) (fs : FS) (C : SnapContent)
    (hP : fs.primary = some C)
    (hA : (st.permissions.autorise .snapshot st.tick).1 = true) :
    (saveStep1 fs).backup = some C ∧
    (st.save_snapshot fs).2 =
      saveStep3 (SnapContent.parsed st.snapshot_dict)
        (saveStep2 (SnapContent.parsed st.snapshot_dict) (saveStep1 fs)) ∧
    (st.save_snapshot fs).2.primary = some (SnapContent.parsed st.snapshot_dict) ∧
    (st.save_snapshot fs).2.backup = some (SnapContent.parsed st.snapshot_dict) := by
  obtain ⟨fsp, fsb⟩ := fs
  dsimp only at hP
  subst hP
  refine ⟨rfl, ?_, ?_, ?_⟩ <;>
    (unfold Engine.save_snapshot
     (try dsimp only)
     rw [hA]
     (try dsimp only [Bool.not_true])
     rfl)

/-- Witness for C1 (amended): concrete fresh engine over a garbage
primary. -/
theorem C1_amended_witness :
    (saveStep1 fsGarbagePrimary).backup = some SnapContent.garbage ∧
    ((Engine.init envHalf).save_snapshot fsGarbagePrimary).2.backup =
      some (SnapContent.parsed (Engine.init envHalf).snapshot_dict) :=
  ⟨(C1_amended (Engine.init envHalf) fsGarbagePrimary SnapContent.garbage rfl rfl).1,
   (C1_amended (Engine.init envHalf) fsGarbagePrimary SnapContent.garbage rfl rfl).2.2.2⟩

/-- A parsed snapshot document carrying only a matching version number
(`{"version": 3}`). -/
def snapOnlyVersion : SnapJson := { version := some 3 }

/-- C2 counterexample: a readable, version-matched primary document that
lacks the "tick" key makes `load_snapshot` raise (`KeyError` from
`data["tick"]`, modelled as `Except.error`) instead of returning `False`. -/
theorem C2_counterexample :
    Engine.load_snapshot ⟨some (SnapContent.parsed snapOnlyVersion), Option.none⟩
      (Engine.init envHalf) = .error () := rfl

/-- "Unreadable or version-mismatched" for one snapshot file slot: the
file is missing, fails to parse, or its version key differs from
`SNAPSHOT_VERSION`. -/
def contentBad : Option SnapContent → Bool
  | Option.none => true
  | some SnapContent.garbage => true
  | some (SnapContent.parsed j) => !(j.version.getD (-1) == SNAPSHOT_VERSION)

/-- C2 (amended): whenever BOTH copies are unreadable or
version-mismatched, `load_snapshot` returns `False` and the engine state
is returned exactly unchanged (the universal "never raises" of the claim fails
only for readable, version-matched documents with missing keys, as the
counterexample shows). -/
theorem C2_amended (fs : FS) (st : Engine)
    (h1 : contentBad fs.primary = true) (h2 : contentBad fs.backup = true) :
    Engine.load_snapshot fs st = .ok (false, st) := by
  obtain ⟨fsp, fsb⟩ := fs
  dsimp only at h1 h2
  have hback : loadFromBackup ⟨fsp, fsb⟩ st = .ok (false, st) := by
    rcases fsb with _ | cb
    · rfl
    · rcases cb with _ | j
      · rfl
      · unfold contentBad at h2
        simp only [Bool.not_eq_true', beq_eq_false_iff_ne, ne_eq] at h2
        unfold loadFromBackup
        dsimp only
        rw [if_pos h2]
  rcases fsp with _ | cp
  · exact hback
  · rcases cp with _ | j
    · exact hback
    · unfold contentBad at h1
      simp only [Bool.not_eq_true', beq_eq_false_iff_ne, ne_eq] at h1
      unfold Engine.load_snapshot
      dsimp only
      rw [if_neg h1]
      exact hback

/-- Witness for C2 (amended): garbage primary, missing backup, fresh
engine. -/
theorem C2_amended_witness :
    Engine.load_snapshot ⟨some SnapContent.garbage, Option.none⟩ (Engine.init envHalf)
      = .ok (false, Engine.init envHalf) :=
  C2_amended ⟨some SnapContent.garbage, Option.none⟩ (Engine.init envHalf) rfl rfl


/-! ### C8: mutually exclusive streak counters -/

set_option maxHeartbeats 800000 in
/-- C8: recording a success zeroes the fail streak and increments the
success streak; recording a failure zeroes the success streak and
increments the fail streak; afterwards at most one streak is nonzero. -/
theorem C8_streak_reset (st : Engine) (a : Action) (res : ExecResult) :
    (res.success = true →
      ((Engine.update_memoire_long_terme a res st).memoire.long_terme a).recent_fail_streak
        = 0 ∧
      ((Engine.update_memoire_long_terme a res st).memoire.long_terme a).recent_success_streak
        = (st.memoire.long_terme a).recent_success_streak + 1) ∧
    (res.success = false →
      ((Engine.update_memoire_long_terme a res st).memoire.long_terme a).recent_success_streak
        = 0 ∧
      ((Engine.update_memoire_long_terme a res st).memoire.long_terme a).recent_fail_streak
        = (st.memoire.long_terme a).recent_fail_streak + 1) ∧
    (((Engine.update_memoire_long_terme a res st).memoire.long_terme a).recent_fail_streak = 0 ∨
      ((Engine.update_memoire_long_terme a res st).memoire.long_terme a).recent_success_streak
        = 0) := by
  unfold Engine.update_memoire_long_terme
  dsimp only
  rw [Function.update_same]
  cases hs : res.success with
  | false =>
      refine ⟨fun h => Bool.noConfusion h, fun _ => ?_, ?_⟩ <;>
        (simp only [Bool.false_eq_true, if_false]
         split <;> simp)
  | true =>
      refine ⟨fun _ => ?_, fun h => Bool.noConfusion h, ?_⟩ <;>
        simp

/-- Witness for C8 at a concrete state and both outcomes. -/
theorem C8_streak_reset_witness :
    (((Engine.update_memoire_long_terme Action.rest
        ⟨true, 0, 0, 0, RareEvt.none⟩ (Engine.init envHalf)).memoire.long_terme
          Action.rest).recent_fail_streak = 0) ∧
    (((Engine.update_memoire_long_terme Action.rest
        ⟨false, 0, 0, 0, RareEvt.none⟩ (Engine.init envHalf)).memoire.long_terme
          Action.rest).recent_success_streak = 0) :=
  ⟨((C8_streak_reset (Engine.init envHalf) Action.rest
      ⟨true, 0, 0, 0, RareEvt.none⟩).1 rfl).1,
   ((C8_streak_reset (Engine.init envHalf) Action.rest
      ⟨false, 0, 0, 0, RareEvt.none⟩).2.1 rfl).1⟩

/-! ### C9: competence progression -/

/-- The data-model invariant of one `Competence` record. -/
def Competence.Inv (c : Competence) : Prop :=
  0 ≤ c.experience ∧ c.experience < c.seuil ∧ 1 ≤ c.seuil

set_option maxHeartbeats 800000 in
/-- C9: the initial record (level 1, experience 0, threshold 1) satisfies
`experience < threshold`; `_update_competence` applies `Competence.step`
to the record of the action; each step adds exactly 0.30 (success) or 0.12
(failure) experience, and on a threshold crossing increments the level by
exactly 1, carries the overflow experience forward, and multiplies the
threshold by 1.25; the invariant holds again after every complete step. -/
theorem C9_competence_step (st : Engine) :
    Competence.Inv {} ∧
    (∀ (a : Action) (success : Bool),
      (Engine.update_competence a success st).competences a = (st.competences a).step success) ∧
    (∀ (c : Competence) (success : Bool), Competence.Inv c →
      Competence.Inv (c.step success) ∧
      (c.experience + (if success then (0.30 : ℚ) else 0.12) < c.seuil →
        c.step success =
          { c with experience := c.experience + (if success then (0.30 : ℚ) else 0.12) }) ∧
      (c.seuil ≤ c.experience + (if success then (0.30 : ℚ) else 0.12) →
        (c.step success).niveau = c.niveau + 1 ∧
        (c.step success).experience =
          c.experience + (if success then (0.30 : ℚ) else 0.12) - c.seuil ∧
        (c.step success).seuil = c.seuil * 1.25)) := by
  refine ⟨⟨by norm_num, by norm_num, by norm_num⟩, ?_, ?_⟩
  · intro a success
    unfold Engine.update_competence
    dsimp only
    (repeat' split) <;> simp [Function.update_same]
  · intro c success h
    obtain ⟨h0, hlt, hs1⟩ := h
    cases success with
    | false =>
        unfold Competence.step
        (try dsimp only)
        (try simp only [Bool.false_eq_true, eq_self_iff_true, if_false, if_true])
        by_cases hcross : c.experience + 0.12 ≥ c.seuil
        · rw [if_pos hcross]
          refine ⟨⟨by linarith, by nlinarith, by nlinarith⟩,
            fun habs => absurd hcross (by push_neg; linarith),
            fun _ => ⟨rfl, rfl, rfl⟩⟩
        · rw [if_neg hcross]
          push_neg at hcross
          refine ⟨⟨by linarith, by linarith, hs1⟩, fun _ => rfl,
            fun habs => absurd habs (by push_neg; linarith)⟩
    | true =>
        unfold Competence.step
        (try dsimp only)
        (try simp only [Bool.false_eq_true, eq_self_iff_true, if_false, if_true])
        by_cases hcross : c.experience + 0.30 ≥ c.seuil
        · rw [if_pos hcross]
          refine ⟨⟨by linarith, by nlinarith, by nlinarith⟩,
            fun habs => absurd hcross (by push_neg; linarith),
            fun _ => ⟨rfl, rfl, rfl⟩⟩
        · rw [if_neg hcross]
          push_neg at hcross
          refine ⟨⟨by linarith, by linarith, hs1⟩, fun _ => rfl,
            fun habs => absurd habs (by push_neg; linarith)⟩

/-- Witness for C9: apply the step facts and the engine tie-in at concrete
inputs (one success from the initial record crosses no threshold boundary
... it stays below: 0.30 < 1). -/
theorem C9_competence_step_witness :
    ((Engine.update_competence Action.rest true (Engine.init envHalf)).competences Action.rest
      = (((Engine.init envHalf).competences Action.rest).step true)) ∧
    Competence.Inv (Competence.step {} true) ∧
    (Competence.step {} true).experience = 0.0 + 0.30 :=
  ⟨(C9_competence_step (Engine.init envHalf)).2.1 Action.rest true,
   ((C9_competence_step (Engine.init envHalf)).2.2 {} true
      ⟨by norm_num, by norm_num, by norm_num⟩).1,
   congrArg Competence.experience
     (((C9_competence_step (Engine.init envHalf)).2.2 {} true
       ⟨by norm_num, by norm_num, by norm_num⟩).2.1 (by norm_num))⟩


/-! ### C5: low-energy gating -/

/-- Membership in the energy-restriction filter of `_gated_actions` forces
one of the three recovery actions. -/
theorem mem_rif_filter {l : List Action} {a : Action}
    (ha : a ∈ l.filter (fun a => [Action.rest, Action.idle, Action.reflect].contains a)) :
    a = Action.rest ∨ a = Action.idle ∨ a = Action.reflect := by
  have hp := List.of_mem_filter ha
  simpa using hp

/-- `_gated_actions` never returns an empty candidate list (the
`cands or ["rest"]` fallback). -/
theorem gated_ne_nil (st : Engine) : Engine.gated_actions st ≠ [] := by
  unfold Engine.gated_actions
  (try dsimp only)
  rcases hI : st.intention_active with _ | i <;> (try dsimp only) <;>
    (repeat' split) <;>
    first
      | (rename_i hne
         intro hc
         rw [hc] at hne
         simp at hne)
      | simp

/-- With `energy < 0.20`, every candidate surviving `_gated_actions` is
`rest`, `idle` or `reflect`. -/
theorem gated_subset_low_energy (st : Engine) (h : st.etat.energy < 0.20) :
    ∀ a ∈ Engine.gated_actions st,
      a = Action.rest ∨ a = Action.idle ∨ a = Action.reflect := by
  unfold Engine.gated_actions
  (try dsimp only)
  rw [if_pos h]
  rcases hI : st.intention_active with _ | i <;> (try dsimp only) <;>
    (repeat' split) <;> intro a ha <;>
    first
      | (simp only [List.mem_singleton] at ha; subst ha; exact Or.inl rfl)
      | exact mem_rif_filter ha
      | exact mem_rif_filter (List.mem_of_mem_filter ha)
      | exact mem_rif_filter (List.mem_of_mem_filter (List.mem_of_mem_filter ha))
      | exact mem_rif_filter
          (List.mem_of_mem_filter (List.mem_of_mem_filter (List.mem_of_mem_filter ha)))

set_option maxHeartbeats 800000 in
/-- C5: whenever `energy < 0.20` at selection time, `choisir_action`
returns one of `{rest, idle, reflect}`; and gating never produces an
empty candidate set (it falls back to `["rest"]`). -/
theorem C5_low_energy_selection (σ : ℕ → ℚ) (st : Engine)
    (h : st.etat.energy < 0.20) :
    ((Engine.choisir_action σ st).1 = Action.rest ∨
     (Engine.choisir_action σ st).1 = Action.idle ∨
     (Engine.choisir_action σ st).1 = Action.reflect) ∧
    ∀ st' : Engine, Engine.gated_actions st' ≠ [] := by
  refine ⟨?_, gated_ne_nil⟩
  unfold Engine.choisir_action
  dsimp only
  have hE : (Engine.choose_intention σ (Engine.active_objectifs st) st).etat = st.etat :=
    (choose_intention_frame σ _ st).1
  have hsub := gated_subset_low_energy
    (Engine.choose_intention σ (Engine.active_objectifs st) st) (by rw [hE]; exact h)
  have hfst := scoreList_fst σ (Engine.active_objectifs st)
    (Engine.gated_actions (Engine.choose_intention σ (Engine.active_objectifs st) st))
    (Engine.choose_intention σ (Engine.active_objectifs st) st)
  rcases hsc : (Engine.scoreList σ (Engine.active_objectifs st)
      (Engine.gated_actions (Engine.choose_intention σ (Engine.active_objectifs st) st))
      (Engine.choose_intention σ (Engine.active_objectifs st) st)).1 with _ | ⟨x, t⟩
  · exact Or.inl rfl
  · (try dsimp only)
    have hmem := firstArgmax_mem (fun pr : Action × ℚ => pr.2) x t
    have hmap : (firstArgmax (fun pr : Action × ℚ => pr.2) x t).1 ∈ (x :: t).map Prod.fst :=
      List.mem_map_of_mem Prod.fst hmem
    rw [hsc] at hfst
    rw [hfst] at hmap
    exact hsub _ hmap

/-- Witness engine for C5: fresh engine with energy forced to `0.1`. -/
def lowEnergyState : Engine :=
  { Engine.init envHalf with etat := { (Engine.init envHalf).etat with energy := 0.1 } }

/-- Witness for C5. -/
theorem C5_low_energy_selection_witness :
    lowEnergyState.etat.energy < 0.20 ∧
    ((Engine.choisir_action envHalf.rand lowEnergyState).1 = Action.rest ∨
     (Engine.choisir_action envHalf.rand lowEnergyState).1 = Action.idle ∨
     (Engine.choisir_action envHalf.rand lowEnergyState).1 = Action.reflect) :=
  ⟨by show (0.1 : ℚ) < 0.20; norm_num,
   (C5_low_energy_selection envHalf.rand lowEnergyState
     (by show (0.1 : ℚ) < 0.20; norm_num)).1⟩


/-! ### C7: periodic consolidation -/

/-- On a consolidation tick with a nonempty action history, the pass
prunes `NotableMemory` to severities `≥ 0.55`. -/
theorem consolidation_souvenirs (st : Engine) (h48 : st.tick % 48 = 0)
    (hh : st.action_history ≠ []) :
    ∀ s ∈ (Engine.consolidation_periodique st).memoire.souvenirs_marquants,
      (0.55 : ℚ) ≤ s.gravite := by
  unfold Engine.consolidation_periodique
  rw [if_neg (by simp [CONSOLIDATION_EVERY_TICKS, h48])]
  (try dsimp only)
  rw [if_neg (by
    simp only [List.isEmpty_iff]
    exact lastN_ne_nil 80 _ (by norm_num) hh)]
  (try dsimp only)
  intro s hs
  simp only [List.mem_filter] at hs
  exact of_decide_eq_true hs.2

set_option maxHeartbeats 1600000 in
/-- The tail of `boucle_de_vie` does not change the tick counter. -/
theorem boucle_post_exec_tick (action : Action) (result : ExecResult)
    (before : StateSnap) (st : Engine) (fs : FS) :
    ((st.boucle_post_exec action result before fs).2.1).tick = st.tick := by
  unfold Engine.boucle_post_exec
  dsimp only
  repeat' split
  all_goals
    ((try dsimp only)
     (try rw [(save_snapshot_frame _ _).2.2.1])
     (try dsimp only)
     (try rw [(day_summary_frame _).2.2.1, (consolidation_frame _).1,
       (meta_learning_frame _).1])
     (try dsimp only)
     (try rw [(update_memoire_frame _ _ _).2.2.1, (update_competence_frame _ _ _).2.2.1])
     (try rfl))

set_option maxHeartbeats 1600000 in
/-- After the tail of a tick whose (final) tick number is a consolidation
tick, every remaining notable memory has severity `≥ 0.55`. -/
theorem boucle_post_exec_souvenirs (action : Action) (result : ExecResult)
    (before : StateSnap) (st : Engine) (fs : FS) (h48 : st.tick % 48 = 0) :
    ∀ s ∈ ((st.boucle_post_exec action result before fs).2.1).memoire.souvenirs_marquants,
      (0.55 : ℚ) ≤ s.gravite := by
  unfold Engine.boucle_post_exec
  dsimp only
  repeat' split
  all_goals
    ((try dsimp only)
     (try rw [(save_snapshot_frame _ _).2.2.2.1])
     (try dsimp only)
     rw [(day_summary_frame _).2.2.2.1]
     refine consolidation_souvenirs _ ?_ ?_
     · rw [(meta_learning_frame _).1]
       (try dsimp only)
       rw [(update_memoire_frame _ _ _).2.2.1, (update_competence_frame _ _ _).2.2.1]
       (try dsimp only)
       exact h48
     · rw [(meta_learning_frame _).2.2]
       (try dsimp only)
       rw [(update_memoire_frame _ _ _).2.2.2.2, (update_competence_frame _ _ _).2.2.2.2]
       (try dsimp only)
       simp)

/-- The engine state produced by one `boucle_de_vie` call (the input state
if the call raised). -/
def boucleResult (env : Env) (st : Engine) (fs : FS) : Engine :=
  match Engine.boucle_de_vie env st fs with
  | .ok (_, st', _) => st'
  | .error _ => st

set_option maxHeartbeats 800000 in
/-- C7: the consolidation pass is the identity off the 48-tick schedule;
and after any non-paused, permission-granted `boucle_de_vie` call whose
resulting tick is a multiple of 48, no notable memory of severity below
`0.55` survives. -/
theorem C7_consolidation_schedule :
    (∀ st : Engine, st.tick % 48 ≠ 0 → Engine.consolidation_periodique st = st) ∧
    (∀ (env : Env) (st : Engine) (fs : FS),
      st.is_paused = false →
      st.contrainte_locale.hors_ligne_strict = true →
      st.contrainte_locale.api_externe_autorisee = false →
      (st.permissions.autorise .simulate st.tick).1 = true →
      (boucleResult env st fs).tick % 48 = 0 →
      ∀ s ∈ (boucleResult env st fs).memoire.souvenirs_marquants,
        (0.55 : ℚ) ≤ s.gravite) := by
  constructor
  · intro st h
    unfold Engine.consolidation_periodique
    rw [if_pos (by simpa [CONSOLIDATION_EVERY_TICKS] using h)]
  · intro env st fs hp hc1 hc2 hperm h48 s hs
    unfold boucleResult Engine.boucle_de_vie at h48 hs
    rw [hp, hc1, hc2] at h48 hs
    (try simp only [Bool.not_false, Bool.not_true, Bool.and_self, Bool.false_eq_true,
      if_false, if_true, ite_false, ite_true, Bool.true_and,
      not_false_eq_true] at h48 hs)
    (try dsimp only at h48 hs)
    rw [hperm] at h48 hs
    (try simp only [Bool.not_true, Bool.false_eq_true, if_false, ite_false] at h48 hs)
    (try dsimp only at h48 hs)
    rw [boucle_post_exec_tick] at h48
    exact boucle_post_exec_souvenirs _ _ _ _ _ h48 s hs


/-- Witness state for the off-schedule part of C7 (tick 1). -/
def stC7a : Engine := { Engine.init envHalf with tick := 1 }

/-- Witness state for the pruning part of C7: tick 47, one notable memory
of severity `0.2` pending. -/
def stC7b : Engine :=
  { Engine.init envHalf with
    tick := 47
    memoire := { souvenirs_marquants := [⟨RareEvt.discovery, 0.2, Action.rest, 3, {}⟩] } }

set_option maxRecDepth 100000 in
/-- Witness for C7 at both concrete states. -/
theorem C7_consolidation_schedule_witness :
    Engine.consolidation_periodique stC7a = stC7a ∧
    (∀ s ∈ (boucleResult envHalf stC7b {}).memoire.souvenirs_marquants,
      (0.55 : ℚ) ≤ s.gravite) :=
  ⟨C7_consolidation_schedule.1 stC7a (by decide),
   C7_consolidation_schedule.2 envHalf stC7b {} rfl rfl rfl rfl
     (by with_unfolding_all rfl)⟩

end Kaguya
